import Mathlib

/-!
# GSC food-donation API: donation and restaurant controllers

A shallow embedding of `controllers/donation.js`, `controllers/restaurants.js`
and `models/Donation.js`.

* The document store is a pair of lists (restaurants, donations); a handler is a
  function from the store and the request to an `Outcome`: the response that was
  sent, the store afterwards and the store calls that were issued, in order.
* A `try { ... } catch (error)` block is a match on an `Except JsError` value, the
  `catch` branch answering 500 with `error.message`.
* Request-body values are seen through the schema type of their path (`Field`):
  what the key holds after the cast, or the fact that it cannot be cast.
* Route parameters and `req.user._id` are well-formed ObjectIds. The query-string
  parameters that `getDonations` copies into its filter are the values as parsed (a
  string, an array for a repeated key, an object for a bracketed key); what the store
  makes of an operator object is the parameter `Operators`.
* Number parsing, multiplication and the spherical distance of the `$near` query
  are those of the platform and the data store: they are the fields of `Geo`, and
  every statement below holds for each choice of them.
* The geocoder and the validators of the Restaurant schema are parameters of
  `registerRestaurant` as well.
* A store call may also throw for a reason outside the documents; `Outcome.catching`
  gives the outcome of a handler then.
-/

namespace GSC

/-! ## Data model -/

/-- Identifier of a document (`_id`). -/
abbrev ObjectId := Nat

/-- A `Date`, in milliseconds since the epoch. -/
abbrev Date := Int

/-- The value of a request-body key as the schema type of its path sees it. -/
inductive Field (α : Type) where
  /-- The key is missing (`undefined`). -/
  | absent
  /-- The key holds `null`. -/
  | null
  /-- The key holds a value that casts to `a`. -/
  | value (a : α)
  /-- The key holds a value that the schema type cannot cast. -/
  | malformed
  deriving DecidableEq, Repr

/-- The JSON body of a request (`req.body`), restricted to the paths of `DonationSchema`
and to the keys that `registerRestaurant` reads; the model layer drops the keys that are
outside the schema of the document it builds. -/
structure Body where
  category : Field String := .absent
  description : Field String := .absent
  quantity : Field Rat := .absent
  pickupTime : Field Date := .absent
  isAvailable : Field Bool := .absent
  restaurant : Field ObjectId := .absent
  createdAt : Field Date := .absent
  name : Field String := .absent
  email : Field String := .absent
  address : Field String := .absent
  phone : Field String := .absent
  deriving DecidableEq

/-- A document of the donations collection (`DonationSchema`). `isAvailable` and
`createdAt` are not required paths, so they may hold `null` (`none`, resp. `⊥`, which
sorts before every date as in the store's ordering). -/
structure Donation where
  _id : ObjectId
  category : String
  description : String
  quantity : Rat
  pickupTime : Date
  isAvailable : Option Bool
  restaurant : ObjectId
  createdAt : WithBot Date
  deriving DecidableEq

/-- A GeoJSON point, `coordinates: [lng, lat]`. -/
structure Point where
  lng : Rat
  lat : Rat
  deriving DecidableEq

/-- Modelled from the spec: the Restaurant schema (`models/Restaurant.js` is not among
the sources): name, email, address, phone, location point, owning user reference. -/
structure Restaurant where
  _id : ObjectId
  name : String
  email : String
  address : String
  phone : String
  user : ObjectId
  location : Point
  deriving DecidableEq

/-- The data store: the restaurants and donations collections, in natural order. -/
structure Store where
  restaurants : List Restaurant
  donations : List Donation
  deriving DecidableEq

/-- An error thrown inside a handler. -/
inductive JsError where
  /-- Mongoose `ValidationError`. -/
  | validation
  /-- Mongoose `CastError`. -/
  | cast
  /-- `TypeError`: a property of `null` was read. -/
  | typeError
  /-- An error raised by the data store, with its code. -/
  | store (code : Nat)
  deriving DecidableEq, Repr

/-- The `message` of a response: a literal of the source, or `error.message`. -/
inductive Message where
  | text (s : String)
  | ofError (e : JsError)
  deriving DecidableEq

/-- The part of a restaurant that `populate('restaurant', 'name address location')` attaches. -/
structure RestaurantSummary where
  _id : ObjectId
  name : String
  address : String
  location : Point
  deriving DecidableEq

/-- A donation whose `restaurant` path has been populated; `restaurant` is `none`
(`null`) when the reference matches no restaurant. -/
structure Populated where
  doc : Donation
  restaurant : Option RestaurantSummary
  deriving DecidableEq

/-- The `donations` array of a response: plain documents or populated ones. -/
inductive Listing where
  | plain (ds : List Donation)
  | joined (ds : List Populated)
  deriving DecidableEq

/-- The donation documents of a listing. -/
def Listing.docs : Listing → List Donation
  | .plain ds => ds
  | .joined ps => ps.map (fun p => p.doc)

/-- The response sent by a handler: status code and the keys of the JSON envelope
(an absent key and a `null` value are both `none`). -/
structure Response where
  status : Nat
  success : Bool
  message : Option Message := none
  count : Option Nat := none
  donation : Option Donation := none
  donations : Option Listing := none
  restaurant : Option Restaurant := none
  restaurants : Option (List Restaurant) := none
  deriving DecidableEq

/-- The donation documents a response carries in its `donations` array (none when the
key is absent). -/
def Response.docs (r : Response) : List Donation :=
  match r.donations with
  | some l => l.docs
  | none => []

/-- A call issued to the data store. -/
inductive StoreCall where
  | restaurantFindOne
  | restaurantFindById
  | restaurantFind
  | restaurantNear
  | restaurantCreate
  | donationCreate
  | donationFind
  | donationFindById
  | donationFindByIdAndUpdate
  | donationRemove
  deriving DecidableEq, Repr

/-- What running a handler produces. -/
structure Outcome where
  response : Response
  store : Store
  calls : List StoreCall
  deriving DecidableEq

/-- The authenticated user (`req.user`). -/
structure ReqUser where
  _id : ObjectId
  deriving DecidableEq

/-- Route parameters (`req.params`). -/
structure Params where
  id : ObjectId
  deriving DecidableEq

/-- A value of the query string as the framework's parser delivers it. -/
inductive QueryValue where
  /-- A key given once, `?k=s`: a string. -/
  | str (s : String)
  /-- A key given several times, `?k=a&k=b`: an array of strings. -/
  | arr (vs : List String)
  /-- A key given with brackets, `?k[a]=x&k[b]=y`: an object, here its keys and values. -/
  | obj (kvs : List (String × String))
  deriving DecidableEq

/-- Query-string parameters (`req.query`). `category` and `isAvailable`, which
`getDonations` reads, are the values as parsed; `lat`, `lng` and `distance`, which the
nearby searches only hand to `parseFloat` and `*`, are the strings of keys given once. -/
structure Query where
  category : Option QueryValue := none
  isAvailable : Option QueryValue := none
  lat : Option String := none
  lng : Option String := none
  distance : Option String := none
  deriving DecidableEq

/-- An HTTP request as the handlers read it. -/
structure Request where
  user : ReqUser := ⟨0⟩
  params : Params := ⟨0⟩
  body : Body := {}
  query : Query := {}
  deriving DecidableEq

/-- Truthiness of a query parameter: defined and not the empty string. -/
def truthy : Option String → Bool
  | some s => s != ""
  | none => false

/-- Truthiness of a parsed query value: defined and not the empty string (an array and an
object are truthy). -/
def truthyValue : Option QueryValue → Bool
  | some (.str s) => s != ""
  | some _ => true
  | none => false

/-! ## The platform and the geospatial index -/

/-- Numbers of the platform and the `$near` query of the store's spatial index.
`near rs lng lat maxDistance` answers
`Restaurant.find({ location: { $near: { $geometry: Point [lng, lat], $maxDistance } } })`
over the collection `rs`; the store rejects some arguments (a `NaN` coordinate), hence
`Except`. -/
structure Geo where
  /-- The type of numbers. -/
  Num : Type
  /-- A numeric literal. -/
  lit : Nat → Num
  /-- The global `parseFloat`. -/
  parseFloat : String → Num
  /-- The implicit conversion of a string operand of `*`. -/
  toNumber : String → Num
  /-- The operator `*` on numbers. -/
  mul : Num → Num → Num
  /-- The near-point query. -/
  near : List Restaurant → Num → Num → Num → Except JsError (List Restaurant)

/-- The expression `distance * 1000`, where `distance` is the query parameter or, when it
is undefined, the default `10`. -/
def Geo.maxDistance (g : Geo) (distance : Option String) : g.Num :=
  match distance with
  | none => g.mul (g.lit 10) (g.lit 1000)
  | some d => g.mul (g.toNumber d) (g.lit 1000)

/-! ## Model layer: `Restaurant` -/

/-- `Restaurant.findOne({ user })`: the first restaurant owned by the user. -/
def Restaurant.findOne (s : Store) (user : ObjectId) : Option Restaurant :=
  s.restaurants.find? (fun r => r.user == user)

/-- `Restaurant.findById(id)`. -/
def Restaurant.findById (s : Store) (id : ObjectId) : Option Restaurant :=
  s.restaurants.find? (fun r => r._id == id)

/-- The fields selected by `populate('restaurant', 'name address location')`. -/
def Restaurant.summary (r : Restaurant) : RestaurantSummary :=
  { _id := r._id, name := r.name, address := r.address, location := r.location }

/-! ## Model layer: `Donation` -/

/-- The `enum` of the `category` path. -/
def categoryEnum : List String := ["vegetarian", "non-vegetarian", "vegan", "bakery"]

/-- Validators of `category`: required, one of the enumerated strings. -/
def validCategory : Field String → Bool
  | .value c => decide (c ∈ categoryEnum)
  | _ => false

/-- Validators of `description`: required (a non-empty string). -/
def validDescription : Field String → Bool
  | .value d => d != ""
  | _ => false

/-- Validators of `quantity`, `pickupTime` and `restaurant`: required. -/
def validRequired {α : Type} : Field α → Bool
  | .value _ => true
  | _ => false

/-- The path `isAvailable` of a new document: `default: true` when undefined;
`none` when the cast fails. -/
def castIsAvailable : Field Bool → Option (Option Bool)
  | .absent => some (some true)
  | .null => some none
  | .value b => some (some b)
  | .malformed => none

/-- The path `createdAt` of a new document: `default: Date.now` when undefined;
`none` when the cast fails. -/
def castCreatedAt (now : Date) : Field Date → Option (WithBot Date)
  | .absent => some (now : Date)
  | .null => some ⊥
  | .value t => some (t : Date)
  | .malformed => none

/-- An identifier carried by no donation of the store (the driver generates a fresh
ObjectId for each new document). -/
def Store.freshId (s : Store) : ObjectId :=
  (s.donations.map (fun d => d._id)).foldr max 0 + 1

/-- The document `new Donation(o)` once cast and validated, or `none` when a path fails. -/
def Donation.build (now : Date) (id : ObjectId) (o : Body) : Option Donation :=
  match o.category, o.description, o.quantity, o.pickupTime, o.restaurant with
  | .value c, .value ds, .value q, .value p, .value r =>
    match castIsAvailable o.isAvailable, castCreatedAt now o.createdAt with
    | some a, some t =>
      if validCategory o.category && validDescription o.description then
        some { _id := id, category := c, description := ds, quantity := q, pickupTime := p,
               isAvailable := a, restaurant := r, createdAt := t }
      else none
    | _, _ => none
  | _, _, _, _, _ => none

/-- `Donation.create(o)`: validates and inserts; throws a `ValidationError` otherwise. -/
def Donation.create (now : Date) (s : Store) (o : Body) : Except JsError (Donation × Store) :=
  match Donation.build now s.freshId o with
  | some d => .ok (d, { s with donations := s.donations ++ [d] })
  | none => .error .validation

/-- `Donation.findById(id)`. -/
def Donation.findById (s : Store) (id : ObjectId) : Option Donation :=
  s.donations.find? (fun d => d._id == id)

/-- A query filter on donations; an absent key puts no condition. -/
structure DonationFilter where
  category : Option String := none
  isAvailable : Option Bool := none
  restaurant : Option ObjectId := none
  restaurantIn : Option (List ObjectId) := none
  pickupTimeGte : Option Date := none

/-- Whether a document matches a filter. -/
def DonationFilter.test (f : DonationFilter) (d : Donation) : Bool :=
  (match f.category with
    | some c => d.category == c
    | none => true) &&
  (match f.isAvailable with
    | some b => d.isAvailable == some b
    | none => true) &&
  (match f.restaurant with
    | some r => d.restaurant == r
    | none => true) &&
  (match f.restaurantIn with
    | some ids => decide (d.restaurant ∈ ids)
    | none => true) &&
  (match f.pickupTimeGte with
    | some t => decide (t ≤ d.pickupTime)
    | none => true)

/-- `Donation.find(filter)`. -/
def Donation.find (s : Store) (f : DonationFilter) : List Donation :=
  s.donations.filter f.test

/-- Order of `sort({ pickupTime: 1 })`. -/
def byPickupTime (a b : Donation) : Prop := a.pickupTime ≤ b.pickupTime

instance : DecidableRel byPickupTime :=
  fun a b => inferInstanceAs (Decidable (a.pickupTime ≤ b.pickupTime))

/-- Order of `sort({ createdAt: -1 })`. -/
def byCreatedAtDesc (a b : Donation) : Prop := b.createdAt ≤ a.createdAt

instance : DecidableRel byCreatedAtDesc :=
  fun a b => inferInstanceAs (Decidable (b.createdAt ≤ a.createdAt))

/-- `populate('restaurant', 'name address location')` on one document. -/
def populate (s : Store) (d : Donation) : Populated :=
  { doc := d, restaurant := (Restaurant.findById s d.restaurant).map Restaurant.summary }

/-- The key is missing. -/
def Field.isAbsent {α : Type} : Field α → Bool
  | .absent => true
  | _ => false

/-- The key holds a value its schema type cannot cast. -/
def Field.isMalformed {α : Type} : Field α → Bool
  | .malformed => true
  | _ => false

/-- Whether some path of an update cannot be cast. -/
def Body.castFails (b : Body) : Bool :=
  b.category.isMalformed || b.description.isMalformed || b.quantity.isMalformed ||
  b.pickupTime.isMalformed || b.isAvailable.isMalformed || b.restaurant.isMalformed ||
  b.createdAt.isMalformed

/-- Update validator of a path: its validators run on the new value (`null` included)
when the update sets the path; a path the update does not name is not validated. -/
def updateOk {α : Type} (valid : Field α → Bool) (f : Field α) : Bool :=
  f.isAbsent || valid f

/-- The update validators (`runValidators: true`) of every path. -/
def Body.updateValid (b : Body) : Bool :=
  updateOk validCategory b.category && updateOk validDescription b.description &&
  updateOk validRequired b.quantity && updateOk validRequired b.pickupTime &&
  updateOk validRequired b.restaurant

/-- The new value of a required path under `$set`. -/
def Field.setOn {α : Type} (old : α) : Field α → α
  | .value a => a
  | _ => old

/-- The new value of a path that may hold `null` under `$set`. -/
def Field.setNullable {α β : Type} (old : β) (nul : β) (inj : α → β) : Field α → β
  | .value a => inj a
  | .null => nul
  | _ => old

/-- The document after `$set` of the keys of `b`. -/
def Donation.patch (d : Donation) (b : Body) : Donation :=
  { _id := d._id
    category := b.category.setOn d.category
    description := b.description.setOn d.description
    quantity := b.quantity.setOn d.quantity
    pickupTime := b.pickupTime.setOn d.pickupTime
    isAvailable := b.isAvailable.setNullable d.isAvailable none some
    restaurant := b.restaurant.setOn d.restaurant
    createdAt := b.createdAt.setNullable d.createdAt ⊥ (fun t => (t : Date)) }

/-- Applies `f` to the first document whose `_id` is `id`. -/
def modifyFirst (id : ObjectId) (f : Donation → Donation) : List Donation → List Donation
  | [] => []
  | d :: ds => if d._id == id then f d :: ds else d :: modifyFirst id f ds

/-- `Donation.findByIdAndUpdate(id, b, { new: true, runValidators: true })`: the update
is cast, validated, applied to the document with this `_id`, and the document as it is
afterwards is returned (`none` when there is no such document). -/
def Donation.findByIdAndUpdate (s : Store) (id : ObjectId) (b : Body) :
    Except JsError (Option Donation × Store) :=
  if b.castFails then .error .cast
  else if !b.updateValid then .error .validation
  else
    match Donation.findById s id with
    | none => .ok (none, s)
    | some d =>
      .ok (some (d.patch b),
           { s with donations := modifyFirst id (fun x => x.patch b) s.donations })

/-- The method `remove()` of a document: deletes the document with its `_id`. -/
def Donation.remove (s : Store) (d : Donation) : Store :=
  { s with donations := s.donations.eraseP (fun x => x._id == d._id) }

/-! ## Controllers: `controllers/donation.js` -/

/-- The string of a query parameter that has passed the truthiness test. -/
def paramText (p : Option String) : String := p.getD ""

/-- Handler `createDonation` (POST /api/donations); `now` is the clock. -/
def createDonation (now : Date) (s : Store) (req : Request) : Outcome :=
  match Restaurant.findOne s req.user._id with
  | none =>
    { response :=
        { status := 404, success := false,
          message := some (.text "Restaurant not found. Please register a restaurant first.") }
      store := s
      calls := [.restaurantFindOne] }
  | some restaurant =>
    match Donation.create now s
        { category := req.body.category
          description := req.body.description
          quantity := req.body.quantity
          pickupTime := req.body.pickupTime
          restaurant := .value restaurant._id } with
    | .ok (donation, s') =>
      { response := { status := 201, success := true, donation := some donation }
        store := s'
        calls := [.restaurantFindOne, .donationCreate] }
    | .error error =>
      { response := { status := 500, success := false, message := some (.ofError error) }
        store := s
        calls := [.restaurantFindOne, .donationCreate] }

/-- How the model layer and the store read an operator object given for the `category`
path (`{ $ne: 'vegan' }`, say): the condition it puts on a document, or the error thrown
when the object is rejected. -/
abbrev Operators := List (String × String) → Except JsError (Donation → Bool)

/-- The object `filter` of `getDonations`: `category` holds the query value as it came,
`isAvailable` a boolean. -/
structure ListFilter where
  category : Option QueryValue := none
  isAvailable : Option Bool := none

/-- The filter that `getDonations` builds from the query string. -/
def listFilter (q : Query) : ListFilter :=
  { category := if truthyValue q.category then q.category else none
    isAvailable :=
      if truthyValue q.isAvailable then some (decide (q.isAvailable = some (.str "true")))
      else none }

/-- `Donation.find(filter)` for the filter of `getDonations`. On the `category` path a
string is an equality, an array is cast to `$in`, and an operator object is read by `ops`;
the other conditions are ANDed with it. -/
def Donation.findListed (ops : Operators) (s : Store) (f : ListFilter) :
    Except JsError (List Donation) :=
  match f.category with
  | none => .ok (Donation.find s { isAvailable := f.isAvailable })
  | some (.str c) => .ok (Donation.find s { category := some c, isAvailable := f.isAvailable })
  | some (.arr cs) =>
    .ok ((Donation.find s { isAvailable := f.isAvailable }).filter
      (fun d => decide (d.category ∈ cs)))
  | some (.obj kvs) =>
    match ops kvs with
    | .ok p => .ok ((Donation.find s { isAvailable := f.isAvailable }).filter p)
    | .error e => .error e

/-- Handler `getDonations` (GET /api/donations). -/
def getDonations (ops : Operators) (s : Store) (req : Request) : Outcome :=
  let filter := listFilter req.query
  match Donation.findListed ops s filter with
  | .ok found =>
    let donations := (found.insertionSort byCreatedAtDesc).map (populate s)
    { response :=
        { status := 200, success := true, count := some donations.length,
          donations := some (.joined donations) }
      store := s
      calls := [.donationFind] }
  | .error error =>
    { response := { status := 500, success := false, message := some (.ofError error) }
      store := s
      calls := [.donationFind] }

/-- Handler `getDonationsByRestaurant` (GET /api/donations/restaurant/:id). -/
def getDonationsByRestaurant (s : Store) (req : Request) : Outcome :=
  let donations :=
    (Donation.find s { restaurant := some req.params.id, isAvailable := some true }).insertionSort
      byPickupTime
  { response :=
      { status := 200, success := true, count := some donations.length,
        donations := some (.plain donations) }
    store := s
    calls := [.donationFind] }

/-- Handler `getNearbyDonations` (GET /api/donations/nearby); `now` is `new Date()`. -/
def getNearbyDonations (g : Geo) (now : Date) (s : Store) (req : Request) : Outcome :=
  if !truthy req.query.lat || !truthy req.query.lng then
    { response :=
        { status := 400, success := false,
          message := some (.text "Please provide latitude and longitude") }
      store := s
      calls := [] }
  else
    match g.near s.restaurants (g.parseFloat (paramText req.query.lng))
        (g.parseFloat (paramText req.query.lat)) (g.maxDistance req.query.distance) with
    | .ok restaurants =>
      let restaurantIds := restaurants.map (fun restaurant => restaurant._id)
      let donations :=
        ((Donation.find s
            { restaurantIn := some restaurantIds, isAvailable := some true,
              pickupTimeGte := some now }).insertionSort byPickupTime).map (populate s)
      { response :=
          { status := 200, success := true, count := some donations.length,
            donations := some (.joined donations) }
        store := s
        calls := [.restaurantNear, .donationFind] }
    | .error error =>
      { response := { status := 500, success := false, message := some (.ofError error) }
        store := s
        calls := [.restaurantNear] }

/-- Handler `updateDonation` (PUT /api/donations/:id). -/
def updateDonation (s : Store) (req : Request) : Outcome :=
  match Donation.findById s req.params.id with
  | none =>
    { response := { status := 404, success := false, message := some (.text "Donation not found") }
      store := s
      calls := [.donationFindById] }
  | some donation =>
    match Restaurant.findById s donation.restaurant with
    | none =>
      -- `restaurant.user` on `null`
      { response := { status := 500, success := false, message := some (.ofError .typeError) }
        store := s
        calls := [.donationFindById, .restaurantFindById] }
    | some restaurant =>
      if restaurant.user != req.user._id then
        { response :=
            { status := 403, success := false,
              message := some (.text "Not authorized to update this donation") }
          store := s
          calls := [.donationFindById, .restaurantFindById] }
      else
        match Donation.findByIdAndUpdate s req.params.id req.body with
        | .ok (donation', s') =>
          { response := { status := 200, success := true, donation := donation' }
            store := s'
            calls := [.donationFindById, .restaurantFindById, .donationFindByIdAndUpdate] }
        | .error error =>
          { response := { status := 500, success := false, message := some (.ofError error) }
            store := s
            calls := [.donationFindById, .restaurantFindById, .donationFindByIdAndUpdate] }

/-- Handler `deleteDonation` (DELETE /api/donations/:id). -/
def deleteDonation (s : Store) (req : Request) : Outcome :=
  match Donation.findById s req.params.id with
  | none =>
    { response := { status := 404, success := false, message := some (.text "Donation not found") }
      store := s
      calls := [.donationFindById] }
  | some donation =>
    match Restaurant.findById s donation.restaurant with
    | none =>
      -- `restaurant.user` on `null`
      { response := { status := 500, success := false, message := some (.ofError .typeError) }
        store := s
        calls := [.donationFindById, .restaurantFindById] }
    | some restaurant =>
      if restaurant.user != req.user._id then
        { response :=
            { status := 403, success := false,
              message := some (.text "Not authorized to delete this donation") }
          store := s
          calls := [.donationFindById, .restaurantFindById] }
      else
        { response := { status := 200, success := true, message := some (.text "Donation removed") }
          store := Donation.remove s donation
          calls := [.donationFindById, .restaurantFindById, .donationRemove] }

/-! ## Controllers: `controllers/restaurants.js` -/

/-- Handler `getNearbyRestaurants` (GET /api/restaurants/nearby). -/
def getNearbyRestaurants (g : Geo) (s : Store) (req : Request) : Outcome :=
  if !truthy req.query.lat || !truthy req.query.lng then
    { response :=
        { status := 400, success := false,
          message := some (.text "Please provide latitude and longitude") }
      store := s
      calls := [] }
  else
    match g.near s.restaurants (g.parseFloat (paramText req.query.lng))
        (g.parseFloat (paramText req.query.lat)) (g.maxDistance req.query.distance) with
    | .ok restaurants =>
      { response :=
          { status := 200, success := true, count := some restaurants.length,
            restaurants := some restaurants }
        store := s
        calls := [.restaurantNear] }
    | .error error =>
      { response := { status := 500, success := false, message := some (.ofError error) }
        store := s
        calls := [.restaurantNear] }

/-- One result of the geocoder; a key the provider left out is `none`. -/
structure GeoEntry where
  longitude : Option Rat
  latitude : Option Rat
  deriving DecidableEq

/-- The expression `v || 0` on an optional number. -/
def orZero : Option Rat → Rat
  | some x => if x = 0 then 0 else x
  | none => 0

/-- The text paths of a restaurant document. -/
structure RestaurantText where
  name : String
  email : String
  address : String
  phone : String
  deriving DecidableEq

/-- Modelled from the spec: the casts and validators of the text paths of the Restaurant
schema (`models/Restaurant.js` is not among the sources). `check rs b` is what a new
restaurant saved into the collection `rs` holds for name, email, address and phone, or the
error that the save throws. -/
structure RestaurantSchema where
  check : List Restaurant → Body → Except JsError RestaurantText

/-- An identifier carried by no restaurant of the store. -/
def Store.freshRestaurantId (s : Store) : ObjectId :=
  (s.restaurants.map (fun r => r._id)).foldr max 0 + 1

/-- `Restaurant.create({ name, email, address, phone, user, location })`. -/
def Restaurant.create (schema : RestaurantSchema) (s : Store) (b : Body) (user : ObjectId)
    (location : Point) : Except JsError (Restaurant × Store) :=
  match schema.check s.restaurants b with
  | .ok t =>
    let r : Restaurant :=
      { _id := s.freshRestaurantId, name := t.name, email := t.email, address := t.address,
        phone := t.phone, user := user, location := location }
    .ok (r, { s with restaurants := s.restaurants ++ [r] })
  | .error e => .error e

/-- Handler `registerRestaurant` (POST /api/restaurants); `geocode` is
`geocoder.geocode`, which may throw. -/
def registerRestaurant (geocode : Field String → Except JsError (List GeoEntry))
    (schema : RestaurantSchema) (s : Store) (req : Request) : Outcome :=
  match geocode req.body.address with
  | .ok results =>
    let location := results.head?
    match Restaurant.create schema s
        { name := req.body.name, email := req.body.email, address := req.body.address,
          phone := req.body.phone }
        req.user._id
        { lng := orZero (location.bind (fun l => l.longitude))
          lat := orZero (location.bind (fun l => l.latitude)) } with
    | .ok (restaurant, s') =>
      { response := { status := 201, success := true, restaurant := some restaurant }
        store := s'
        calls := [.restaurantCreate] }
    | .error error =>
      { response := { status := 500, success := false, message := some (.ofError error) }
        store := s
        calls := [.restaurantCreate] }
  | .error error =>
    { response := { status := 500, success := false, message := some (.ofError error) }
      store := s
      calls := [] }

/-- Handler `getRestaurants` (GET /api/restaurants). -/
def getRestaurants (s : Store) (_req : Request) : Outcome :=
  let restaurants := s.restaurants
  { response :=
      { status := 200, success := true, count := some restaurants.length,
        restaurants := some restaurants }
    store := s
    calls := [.restaurantFind] }

/-- Handler `getRestaurant` (GET /api/restaurants/:id). -/
def getRestaurant (s : Store) (req : Request) : Outcome :=
  match Restaurant.findById s req.params.id with
  | none =>
    { response :=
        { status := 404, success := false, message := some (.text "Restaurant not found") }
      store := s
      calls := [.restaurantFindById] }
  | some restaurant =>
    { response := { status := 200, success := true, restaurant := some restaurant }
      store := s
      calls := [.restaurantFindById] }

/-! ## All the handlers, and calls that throw -/

/-- What the handlers take from outside the request and the store. -/
structure World where
  geo : Geo
  geocode : Field String → Except JsError (List GeoEntry)
  schema : RestaurantSchema
  ops : Operators
  now : Date

/-- The handlers of the two controllers. -/
inductive Handler where
  | createDonation
  | getDonations
  | getDonationsByRestaurant
  | getNearbyDonations
  | updateDonation
  | deleteDonation
  | registerRestaurant
  | getRestaurants
  | getNearbyRestaurants
  | getRestaurant
  deriving DecidableEq, Repr

/-- Runs a handler. -/
def Handler.run (h : Handler) (w : World) (s : Store) (req : Request) : Outcome :=
  match h with
  | .createDonation => GSC.createDonation w.now s req
  | .getDonations => GSC.getDonations w.ops s req
  | .getDonationsByRestaurant => GSC.getDonationsByRestaurant s req
  | .getNearbyDonations => GSC.getNearbyDonations w.geo w.now s req
  | .updateDonation => GSC.updateDonation s req
  | .deleteDonation => GSC.deleteDonation s req
  | .registerRestaurant => GSC.registerRestaurant w.geocode w.schema s req
  | .getRestaurants => GSC.getRestaurants s req
  | .getNearbyRestaurants => GSC.getNearbyRestaurants w.geo s req
  | .getRestaurant => GSC.getRestaurant s req

/-- Which awaited store calls throw, and what: `φ c = some e` when the call `c` rejects
with `e` (the store cannot be reached, say) instead of answering. -/
abbrev Throws := StoreCall → Option JsError

/-- The first call of a trace that throws: the calls issued up to it, and its error. -/
def firstThrow (φ : Throws) : List StoreCall → Option (List StoreCall × JsError)
  | [] => none
  | c :: cs =>
    match φ c with
    | some e => some ([c], e)
    | none => (firstThrow φ cs).map (fun p => (c :: p.1, p.2))

/-- The outcome of a handler, started on the store `s`, when the calls of `φ` throw. The
calls before the first one that throws answer as usual, so the handler issues the same
calls up to it; the `await` of that call throws inside `try`, the rest of the block is
skipped and `catch` answers 500 with the message of the error. A handler writes with its
last call only, so the store is still `s`. -/
def Outcome.catching (φ : Throws) (s : Store) (o : Outcome) : Outcome :=
  match firstThrow φ o.calls with
  | some (issued, error) =>
    { response := { status := 500, success := false, message := some (.ofError error) }
      store := s
      calls := issued }
  | none => o

/-! ## Store invariants -/

/-- Every donation references an existing restaurant. -/
def Store.refsOk (s : Store) : Prop :=
  ∀ d ∈ s.donations, ∃ r ∈ s.restaurants, r._id = d.restaurant

instance (s : Store) : Decidable s.refsOk :=
  inferInstanceAs (Decidable (∀ d ∈ s.donations, ∃ r ∈ s.restaurants, r._id = d.restaurant))

/-- The `_id` of a donation is unique in the collection (the store's index on `_id`). -/
def Store.idsUnique (s : Store) : Prop :=
  (s.donations.map (fun d => d._id)).Nodup

instance (s : Store) : Decidable s.idsUnique :=
  inferInstanceAs (Decidable ((s.donations.map (fun d : Donation => d._id)).Nodup))

/-! ## Example data -/

/-- A restaurant owned by user 10. -/
def restaurantA : Restaurant :=
  { _id := 1, name := "Green Kitchen", email := "contact@greenkitchen.com",
    address := "123 Main St", phone := "555-123-4567", user := 10,
    location := { lng := -74, lat := 40 } }

/-- A restaurant owned by user 20. -/
def restaurantB : Restaurant :=
  { _id := 2, name := "Fresh Bites", email := "info@freshbites.com",
    address := "456 Oak Ave", phone := "555-987-6543", user := 20,
    location := { lng := -118, lat := 34 } }

/-- An available donation of restaurant 1, to be picked up at time 2000. -/
def donationA : Donation :=
  { _id := 1, category := "vegan", description := "soup", quantity := 5, pickupTime := 2000,
    isAvailable := some true, restaurant := 1, createdAt := ((100 : Date) : WithBot Date) }

/-- An available donation of restaurant 1, to be picked up at time 500. -/
def donationB : Donation :=
  { _id := 2, category := "bakery", description := "bread", quantity := 3, pickupTime := 500,
    isAvailable := some true, restaurant := 1, createdAt := ((200 : Date) : WithBot Date) }

/-- A donation of restaurant 2 that is no longer available. -/
def donationC : Donation :=
  { _id := 3, category := "vegan", description := "stew", quantity := 2, pickupTime := 1500,
    isAvailable := some false, restaurant := 2, createdAt := ((300 : Date) : WithBot Date) }

/-- A store with two restaurants and three donations. -/
def exampleStore : Store :=
  { restaurants := [restaurantA, restaurantB], donations := [donationA, donationB, donationC] }

/-- A platform with integer numbers whose spatial index finds restaurant 1, and only it,
within range of every point. -/
def exampleGeo : Geo :=
  { Num := Int
    lit := fun n => (n : Int)
    parseFloat := fun t => (t.length : Int)
    toNumber := fun t => (t.length : Int)
    mul := fun a b => a * b
    near := fun rs _ _ _ => .ok (rs.filter (fun r => r._id == 1)) }

/-- A request of user 20, who owns restaurant 2, on donation 1 of restaurant 1, with a
body that would change the quantity. -/
def intruderRequest : Request :=
  { user := ⟨20⟩, params := ⟨1⟩, body := { quantity := .value 7, isAvailable := .value false } }

/-- A request of user 30, who owns no restaurant, with a valid donation body. -/
def strangerRequest : Request :=
  { user := ⟨30⟩
    body := { category := .value "vegan", description := .value "rice", quantity := .value 4,
              pickupTime := .value 3000 } }

/-- A request of user 10, who owns restaurant 1, whose body also carries `isAvailable`
and `restaurant` keys. -/
def ownerRequest : Request :=
  { user := ⟨10⟩
    body := { category := .value "vegan", description := .value "rice", quantity := .value 4,
              pickupTime := .value 3000, isAvailable := .value false, restaurant := .value 2 } }

/-- A nearby search with both coordinates. -/
def nearbyRequest : Request :=
  { query := { lat := some "40.7", lng := some "-74.0", distance := some "5" } }

/-- A nearby search whose latitude is the empty string. -/
def noLatRequest : Request :=
  { query := { lat := some "", lng := some "-74.0" } }

/-- A listing restricted to available donations of one category. -/
def availableRequest : Request :=
  { query := { category := some (.str "vegan"), isAvailable := some (.str "true") } }

/-- A listing whose category key is given twice, `?category=vegan&category=bakery`. -/
def repeatedCategoryRequest : Request :=
  { query := { category := some (.arr ["vegan", "bakery"]) } }

/-- A listing whose category is the empty string, `?category=`. -/
def emptyCategoryRequest : Request :=
  { query := { category := some (.str "") } }

/-- A listing whose category is an operator object, `?category[$ne]=vegan`. -/
def notVeganRequest : Request :=
  { query := { category := some (.obj [("$ne", "vegan")]) } }

/-- The operator `$ne`, and no other. -/
def exampleOps : Operators
  | [("$ne", v)] => .ok (fun d => d.category != v)
  | _ => .error .cast

/-- A second restaurant of user 10. -/
def restaurantD : Restaurant :=
  { _id := 3, name := "Urban Plate", email := "hello@urbanplate.com",
    address := "789 Pine St", phone := "555-456-7890", user := 10,
    location := { lng := -87, lat := 41 } }

/-- A store in which user 10 owns two restaurants, 1 and 3, as after the seeding script,
which links every restaurant to the one restaurant user. -/
def sharedStore : Store :=
  { restaurants := [restaurantA, restaurantD], donations := [donationA, donationB, donationC] }

/-- A listing of the donations of restaurant 3. -/
def restaurantDRequest : Request :=
  { params := ⟨3⟩ }

/-- A listing of the donations of restaurant 1. -/
def restaurantRequest : Request :=
  { params := ⟨1⟩ }

/-- The owner of restaurant 1 moves donation 1 to a restaurant id that no restaurant has. -/
def relinkRequest : Request :=
  { user := ⟨10⟩, params := ⟨1⟩, body := { restaurant := .value 99 } }

/-- The example store after `relinkRequest`: donation 1 references restaurant 99. -/
def orphanStore : Store := (updateDonation exampleStore relinkRequest).store

/-- A request of user 10 on donation 1 that changes the quantity and the availability. -/
def ownerPatchRequest : Request :=
  { user := ⟨10⟩, params := ⟨1⟩, body := { quantity := .value 7, isAvailable := .value false } }

/-- A request of user 10 on donation 1 whose patch sets a category outside the enumeration. -/
def pizzaPatchRequest : Request :=
  { user := ⟨10⟩, params := ⟨1⟩, body := { category := .value "pizza" } }

/-- A creation by user 10 with a category outside the enumeration. -/
def pizzaRequest : Request :=
  { user := ⟨10⟩
    body := { category := .value "pizza", description := .value "rice", quantity := .value 4,
              pickupTime := .value 3000 } }

/-- A creation by user 10 with the quantity zero. -/
def zeroRequest : Request :=
  { user := ⟨10⟩
    body := { category := .value "vegan", description := .value "rice", quantity := .value 0,
              pickupTime := .value 3000 } }

/-- A creation by user 10 with a negative, non-integral quantity. -/
def fractionRequest : Request :=
  { user := ⟨10⟩
    body := { category := .value "vegan", description := .value "rice",
              quantity := .value (-5 / 2), pickupTime := .value 3000 } }

/-- A creation by user 10 without a quantity. -/
def noQuantityRequest : Request :=
  { user := ⟨10⟩
    body := { category := .value "vegan", description := .value "rice",
              pickupTime := .value 3000 } }

/-- A registration by user 30. -/
def registerRequest : Request :=
  { user := ⟨30⟩
    body := { name := .value "Urban Plate", email := .value "hello@urbanplate.com",
              address := .value "789 Pine St", phone := .value "555-456-7890" } }

/-- A registration by user 30 whose address is unknown to the geocoder. -/
def nowhereRequest : Request :=
  { user := ⟨30⟩
    body := { name := .value "Urban Plate", email := .value "hello@urbanplate.com",
              address := .value "", phone := .value "555-456-7890" } }

/-- A schema whose four text paths are required. -/
def exampleSchema : RestaurantSchema :=
  { check := fun _ b =>
      match b.name, b.email, b.address, b.phone with
      | .value n, .value e, .value a, .value p =>
        .ok { name := n, email := e, address := a, phone := p }
      | _, _, _, _ => .error .validation }

/-- A geocoder that knows one place for every non-empty address, and none otherwise. -/
def exampleGeocode : Field String → Except JsError (List GeoEntry)
  | .value a =>
    if a = "" then .ok []
    else .ok [{ longitude := some (-87), latitude := some 41 },
              { longitude := some 2, latitude := some 48 }]
  | _ => .ok []

/-- The example platform, geocoder and schema, at time 1000. -/
def exampleWorld : World :=
  { geo := exampleGeo, geocode := exampleGeocode, schema := exampleSchema, ops := exampleOps,
    now := 1000 }

/-- Every call to find donations throws the store error 7. -/
def findThrows : Throws
  | .donationFind => some (.store 7)
  | _ => none

/-! ## The envelope of a response -/

/-- The uniform envelope: `success` is true exactly when the status is 200 or 201, the
status is one of 200, 201, 400, 403, 404, 500, and a 500 carries the message of an error. -/
def Response.uniform (r : Response) : Prop :=
  (r.success = true ↔ r.status = 200 ∨ r.status = 201) ∧
  r.status ∈ [200, 201, 400, 403, 404, 500] ∧
  (r.status = 500 → ∃ e, r.message = some (.ofError e))

/-- The calls that write to the store. -/
def StoreCall.writes : StoreCall → Bool
  | .restaurantCreate => true
  | .donationCreate => true
  | .donationFindByIdAndUpdate => true
  | .donationRemove => true
  | _ => false

/-! ## The filter of `listDonations` as specified -/

/-- The condition on `isAvailable`: the boolean `query.isAvailable === 'true'` when a
non-empty `isAvailable` is given, none otherwise. -/
def availableFilter (q : Query) (d : Donation) : Bool :=
  match q.isAvailable with
  | some a => a == .str "" || d.isAvailable == some (a == .str "true")
  | none => true

/-- The optional filter of `listDonations` in the words of the specification: the category
equals the query's category when one is given, `isAvailable` equals the boolean
`query.isAvailable === 'true'` when a non-empty `isAvailable` is given, and an absent
parameter puts no restriction. -/
def specFilter (q : Query) (d : Donation) : Bool :=
  (match q.category with
    | some c => c == .str d.category
    | none => true) &&
  availableFilter q d

/-- The filter that `getDonations` applies, `p` being the condition of the operator object
when the category is one: the category equals the query's when that is a non-empty string,
is one of the values when the key is repeated, satisfies `p` for an operator object; an
absent or empty category puts no restriction. -/
def appliedFilter (q : Query) (p : Donation → Bool) (d : Donation) : Bool :=
  (match q.category with
    | none => true
    | some (.str c) => c == "" || d.category == c
    | some (.arr cs) => decide (d.category ∈ cs)
    | some (.obj _) => p d) &&
  availableFilter q d

/-! ## Sort orders -/

instance : IsTotal Donation byPickupTime :=
  ⟨fun a b => le_total a.pickupTime b.pickupTime⟩

instance : IsTrans Donation byPickupTime :=
  ⟨fun _ _ _ h₁ h₂ => le_trans (α := Int) h₁ h₂⟩

instance : IsTotal Donation byCreatedAtDesc :=
  ⟨fun a b => le_total b.createdAt a.createdAt⟩

instance : IsTrans Donation byCreatedAtDesc :=
  ⟨fun _ _ _ h₁ h₂ => le_trans (α := WithBot Date) h₂ h₁⟩

/-! ## Lemmas on the model layer -/

/-- Populating keeps the documents. -/
theorem docs_joined_populate (s : Store) (l : List Donation) :
    (Listing.joined (l.map (populate s))).docs = l := by
  simp [Listing.docs, populate, Function.comp_def]

/-- Every identifier of a list is at most the maximum the fresh identifier is built on. -/
theorem le_foldr_max (ids : List ObjectId) (i : ObjectId) (h : i ∈ ids) :
    i ≤ ids.foldr max 0 := by
  induction ids with
  | nil => simp at h
  | cons a t ih =>
    rcases List.mem_cons.mp h with rfl | ht
    · exact le_max_left _ _
    · exact le_trans (ih ht) (le_max_right _ _)

/-- The fresh identifier is the `_id` of no donation of the store. -/
theorem freshId_not_mem (s : Store) (d : Donation) (h : d ∈ s.donations) :
    d._id ≠ s.freshId := by
  have hle : d._id ≤ (s.donations.map (fun x => x._id)).foldr max 0 :=
    le_foldr_max _ _ (List.mem_map_of_mem (fun x => x._id) h)
  intro heq
  rw [heq] at hle
  exact Nat.not_succ_le_self _ hle

/-- A non-empty string is not `==` to the empty one. -/
theorem beq_empty_false {c : String} (h : c ≠ "") : (c == "") = false := by
  simpa using h

/-- An object whose four body paths validate, with a restaurant id, builds a document
that carries the values of these paths, the restaurant, `isAvailable = true` and the
clock as `createdAt`. -/
theorem build_of_valid (now : Date) (id rid : ObjectId) (b : Body)
    (hc : validCategory b.category = true) (hd : validDescription b.description = true)
    (hq : validRequired b.quantity = true) (hp : validRequired b.pickupTime = true) :
    ∃ d, Donation.build now id
        { category := b.category, description := b.description, quantity := b.quantity,
          pickupTime := b.pickupTime, restaurant := .value rid } = some d ∧
      d._id = id ∧ d.restaurant = rid ∧ d.isAvailable = some true ∧
      d.createdAt = ((now : Date) : WithBot Date) ∧
      b.category = .value d.category ∧ b.description = .value d.description ∧
      b.quantity = .value d.quantity ∧ b.pickupTime = .value d.pickupTime := by
  cases hcat : b.category <;> simp [hcat, validCategory] at hc
  cases hdes : b.description <;> simp [hdes, validDescription] at hd
  cases hqty : b.quantity <;> simp [hqty, validRequired] at hq
  cases hpt : b.pickupTime <;> simp [hpt, validRequired] at hp
  simp [Donation.build, castIsAvailable, castCreatedAt, validCategory, validDescription, hc, hd]

/-- Equality test of query values. -/
theorem queryValue_beq (x y : QueryValue) : (x == y) = decide (x = y) := rfl

/-- The condition that the filter of `getDonations` puts on `isAvailable`. -/
theorem listFilter_available (q : Query) (d : Donation) :
    (match (listFilter q).isAvailable with
      | some b => d.isAvailable == some b
      | none => true) = availableFilter q d := by
  rcases ha : q.isAvailable with _ | a
  · simp [listFilter, truthyValue, availableFilter, ha]
  · rcases a with a | vs | kvs
    · by_cases h : a = ""
      · simp [listFilter, truthyValue, availableFilter, ha, h]
      · simp [listFilter, truthyValue, availableFilter, ha, h, queryValue_beq]
    · simp [listFilter, truthyValue, availableFilter, ha, queryValue_beq]
    · simp [listFilter, truthyValue, availableFilter, ha, queryValue_beq]

/-- The donations found under the `isAvailable` condition of the filter alone. -/
theorem find_available (s : Store) (q : Query) :
    Donation.find s { isAvailable := (listFilter q).isAvailable } =
      s.donations.filter (availableFilter q) := by
  unfold Donation.find
  apply List.filter_congr
  intro d _
  simp only [DonationFilter.test, Bool.and_true, Bool.true_and]
  exact listFilter_available q d

/-- What `Donation.find` answers to the filter of `getDonations` when the category is not
an operator object that the store rejects: the donations that pass `appliedFilter`. -/
theorem findListed_ok (ops : Operators) (s : Store) (q : Query) (p : Donation → Bool)
    (hacc : ∀ kvs, q.category = some (.obj kvs) → ops kvs = .ok p) :
    Donation.findListed ops s (listFilter q) = .ok (s.donations.filter (appliedFilter q p)) := by
  have hav : (listFilter q).isAvailable = (listFilter q).isAvailable := rfl
  rcases hc : q.category with _ | v
  · have hcat : (listFilter q).category = none := by simp [listFilter, truthyValue, hc]
    simp only [Donation.findListed, hcat, find_available]
    congr 1
    apply List.filter_congr
    intro d _
    simp [appliedFilter, hc]
  · rcases v with c | cs | kvs
    · by_cases h : c = ""
      · have hcat : (listFilter q).category = none := by
          simp [listFilter, truthyValue, hc, h]
        simp only [Donation.findListed, hcat, find_available]
        congr 1
        apply List.filter_congr
        intro d _
        simp [appliedFilter, hc, h]
      · have hcat : (listFilter q).category = some (.str c) := by
          simp [listFilter, truthyValue, hc, h]
        simp only [Donation.findListed, hcat]
        congr 1
        unfold Donation.find
        apply List.filter_congr
        intro d _
        simp only [DonationFilter.test, Bool.and_true, appliedFilter, hc,
          beq_empty_false h, Bool.false_or]
        rw [listFilter_available]
    · have hcat : (listFilter q).category = some (.arr cs) := by
        simp [listFilter, truthyValue, hc]
      simp only [Donation.findListed, hcat, find_available, List.filter_filter]
      congr 1
      apply List.filter_congr
      intro d _
      simp [appliedFilter, hc]
    · have hcat : (listFilter q).category = some (.obj kvs) := by
        simp [listFilter, truthyValue, hc]
      simp only [Donation.findListed, hcat, hacc kvs hc, find_available, List.filter_filter]
      congr 1
      apply List.filter_congr
      intro d _
      simp [appliedFilter, hc]

/-- What `Donation.find` answers to the filter of `getDonations`: an error that `ops`
throws on the operator object, or donations of the store that pass the `isAvailable`
condition. -/
theorem findListed_sound (ops : Operators) (s : Store) (q : Query) :
    (∃ kvs e, q.category = some (.obj kvs) ∧ ops kvs = .error e ∧
      Donation.findListed ops s (listFilter q) = .error e) ∨
    ∃ p, Donation.findListed ops s (listFilter q) =
      .ok (s.donations.filter (appliedFilter q p)) := by
  rcases hc : q.category with _ | v
  · exact Or.inr ⟨fun _ => true, findListed_ok ops s q _ (by simp [hc])⟩
  · rcases v with c | cs | kvs
    · exact Or.inr ⟨fun _ => true, findListed_ok ops s q _ (by simp [hc])⟩
    · exact Or.inr ⟨fun _ => true, findListed_ok ops s q _ (by simp [hc])⟩
    · cases ho : ops kvs with
      | error e =>
        refine Or.inl ⟨kvs, e, rfl, ho, ?_⟩
        have hcat : (listFilter q).category = some (.obj kvs) := by
          simp [listFilter, truthyValue, hc]
        simp [Donation.findListed, hcat, ho]
      | ok p =>
        refine Or.inr ⟨p, findListed_ok ops s q p ?_⟩
        intro kvs2 h2
        rw [hc] at h2
        simp only [Option.some.injEq, QueryValue.obj.injEq] at h2
        rw [← h2]; exact ho

/-- The outcome of `getDonations` when the query finds `found`. -/
theorem getDonations_of_ok (ops : Operators) (s : Store) (req : Request)
    (found : List Donation)
    (h : Donation.findListed ops s (listFilter req.query) = .ok found) :
    (getDonations ops s req).response.status = 200 ∧
    (getDonations ops s req).response.docs = found.insertionSort byCreatedAtDesc ∧
    (getDonations ops s req).response.count =
      some (getDonations ops s req).response.docs.length ∧
    (getDonations ops s req).store = s := by
  simp [getDonations, h, Response.docs, docs_joined_populate]

/-- The outcome of `getDonations` when the query throws. -/
theorem getDonations_of_error (ops : Operators) (s : Store) (req : Request) (e : JsError)
    (h : Donation.findListed ops s (listFilter req.query) = .error e) :
    (getDonations ops s req).response =
      { status := 500, success := false, message := some (.ofError e) } ∧
    (getDonations ops s req).response.docs = [] ∧
    (getDonations ops s req).store = s := by
  simp [getDonations, h, Response.docs]

/-! ## Ownership checks -/

/-- C1: `updateDonation` on an existing donation `d` whose restaurant `r` exists, by a
requester who is not the user of `r`, answers 403 with `success = false` whatever the
body, and leaves the store as it was (`d` is still the document found under its id). -/
theorem updateDonation_nonOwner_forbidden (s : Store) (req : Request) (d : Donation)
    (r : Restaurant)
    (hd : Donation.findById s req.params.id = some d)
    (hr : Restaurant.findById s d.restaurant = some r)
    (hu : r.user ≠ req.user._id) :
    (updateDonation s req).response.status = 403 ∧
    (updateDonation s req).response.success = false ∧
    (updateDonation s req).store = s ∧
    Donation.findById (updateDonation s req).store req.params.id = some d := by
  simp [updateDonation, hd, hr, hu]

/-- Witness of C1: user 20 tries to update donation 1 of restaurant 1 (owned by user 10). -/
theorem updateDonation_nonOwner_forbidden_witness :
    (updateDonation exampleStore intruderRequest).response.status = 403 ∧
    (updateDonation exampleStore intruderRequest).response.success = false ∧
    (updateDonation exampleStore intruderRequest).store = exampleStore ∧
    Donation.findById (updateDonation exampleStore intruderRequest).store
      intruderRequest.params.id = some donationA :=
  updateDonation_nonOwner_forbidden exampleStore intruderRequest donationA restaurantA
    (by decide) (by decide) (by decide)

/-- C2: `deleteDonation` on an existing donation `d` whose restaurant `r` exists, by a
requester who is not the user of `r`, answers 403 with `success = false`; the store is
unchanged, so `d` is still in it and no donation is removed. -/
theorem deleteDonation_nonOwner_forbidden (s : Store) (req : Request) (d : Donation)
    (r : Restaurant)
    (hd : Donation.findById s req.params.id = some d)
    (hr : Restaurant.findById s d.restaurant = some r)
    (hu : r.user ≠ req.user._id) :
    (deleteDonation s req).response.status = 403 ∧
    (deleteDonation s req).response.success = false ∧
    (deleteDonation s req).store = s ∧
    d ∈ (deleteDonation s req).store.donations ∧
    Donation.findById (deleteDonation s req).store req.params.id = some d := by
  have hmem : d ∈ s.donations := List.mem_of_find?_eq_some hd
  simp [deleteDonation, hd, hr, hu, hmem]

/-- Witness of C2: user 20 tries to delete donation 1 of restaurant 1 (owned by user 10). -/
theorem deleteDonation_nonOwner_forbidden_witness :
    (deleteDonation exampleStore intruderRequest).response.status = 403 ∧
    (deleteDonation exampleStore intruderRequest).response.success = false ∧
    (deleteDonation exampleStore intruderRequest).store = exampleStore ∧
    donationA ∈ (deleteDonation exampleStore intruderRequest).store.donations ∧
    Donation.findById (deleteDonation exampleStore intruderRequest).store
      intruderRequest.params.id = some donationA :=
  deleteDonation_nonOwner_forbidden exampleStore intruderRequest donationA restaurantA
    (by decide) (by decide) (by decide)

/-! ## Creation -/

/-- C3: when no restaurant of the store has the requester as its user, `createDonation`
answers 404 with `success = false` whatever the body, and the store (in particular the
donations collection) is unchanged. -/
theorem createDonation_noRestaurant (now : Date) (s : Store) (req : Request)
    (h : ∀ r ∈ s.restaurants, r.user ≠ req.user._id) :
    (createDonation now s req).response.status = 404 ∧
    (createDonation now s req).response.success = false ∧
    (createDonation now s req).store = s ∧
    (createDonation now s req).store.donations = s.donations := by
  have hnone : Restaurant.findOne s req.user._id = none := by
    simp only [Restaurant.findOne, List.find?_eq_none]
    intro r hr
    simpa using h r hr
  simp [createDonation, hnone]

/-- Witness of C3: user 30 owns no restaurant of the example store. -/
theorem createDonation_noRestaurant_witness :
    (createDonation 50 exampleStore strangerRequest).response.status = 404 ∧
    (createDonation 50 exampleStore strangerRequest).response.success = false ∧
    (createDonation 50 exampleStore strangerRequest).store = exampleStore ∧
    (createDonation 50 exampleStore strangerRequest).store.donations = exampleStore.donations :=
  createDonation_noRestaurant 50 exampleStore strangerRequest (by decide)

/-- The restaurant that `Restaurant.findOne({ user })` resolves when the user owns a
restaurant `r0`: the first restaurant of the collection that the user owns, which is `r0`
when the user owns no other. -/
theorem findOne_of_owned (s : Store) (u : ObjectId) (r0 : Restaurant)
    (hmem : r0 ∈ s.restaurants) (hown : r0.user = u) :
    ∃ r pre post, Restaurant.findOne s u = some r ∧
      s.restaurants = pre ++ r :: post ∧ (∀ a ∈ pre, a.user ≠ u) ∧ r.user = u ∧
      ((∀ r' ∈ s.restaurants, r'.user = u → r' = r0) → r = r0) := by
  cases hf : Restaurant.findOne s u with
  | none =>
    exfalso
    unfold Restaurant.findOne at hf
    rw [List.find?_eq_none] at hf
    exact hf r0 hmem (by simpa using hown)
  | some r =>
    have hf2 := hf
    unfold Restaurant.findOne at hf2
    obtain ⟨hp, pre, post, hl, hpre⟩ := List.find?_eq_some.mp hf2
    have hru : r.user = u := by simpa using hp
    refine ⟨r, pre, post, rfl, hl, ?_, hru, ?_⟩
    · intro a ha
      simpa using hpre a ha
    · intro huniq
      exact huniq r (List.mem_of_find?_eq_some hf2) hru

/-- When `Restaurant.findOne({ user })` resolves `r` and the body's category, description,
quantity and pickupTime pass the schema's validators, `createDonation` answers 201 and the
donations collection grows by exactly one document, the one returned, whose restaurant is
the id of `r` and whose `isAvailable` is true; the restaurants are untouched, and every
body with the same four values gives the same outcome, whatever its other keys. -/
theorem createDonation_resolved (now : Date) (s : Store) (req : Request) (r : Restaurant)
    (hr : Restaurant.findOne s req.user._id = some r)
    (hc : validCategory req.body.category = true)
    (hd : validDescription req.body.description = true)
    (hq : validRequired req.body.quantity = true)
    (hp : validRequired req.body.pickupTime = true) :
    (createDonation now s req).response.status = 201 ∧
    (createDonation now s req).response.success = true ∧
    (∃ d, (createDonation now s req).store.donations = s.donations ++ [d] ∧
      (createDonation now s req).response.donation = some d ∧
      d.restaurant = r._id ∧ d.isAvailable = some true) ∧
    (createDonation now s req).store.restaurants = s.restaurants ∧
    (∀ b : Body, b.category = req.body.category → b.description = req.body.description →
      b.quantity = req.body.quantity → b.pickupTime = req.body.pickupTime →
      createDonation now s { req with body := b } = createDonation now s req) := by
  obtain ⟨d, hb, -, hrest, hav, -⟩ := build_of_valid now s.freshId r._id req.body hc hd hq hp
  refine ⟨?_, ?_, ⟨d, ?_, ?_, hrest, hav⟩, ?_, ?_⟩
  · simp [createDonation, hr, Donation.create, hb]
  · simp [createDonation, hr, Donation.create, hb]
  · simp [createDonation, hr, Donation.create, hb]
  · simp [createDonation, hr, Donation.create, hb]
  · simp [createDonation, hr, Donation.create, hb]
  · intro b h1 h2 h3 h4
    simp [createDonation, h1, h2, h3, h4]

/-- C4, as stated, fails: in a store where user 10 owns the restaurants 1 and 3, user 10
posts a valid donation; the handler answers 201 and adds one donation, linked to
restaurant 1, so for the owned restaurant `r` = restaurant 3 no donation whose restaurant
is the id of `r` is added. -/
theorem createDonation_not_each_owned :
    restaurantD ∈ sharedStore.restaurants ∧ restaurantD.user = ownerRequest.user._id ∧
    validCategory ownerRequest.body.category = true ∧
    validDescription ownerRequest.body.description = true ∧
    validRequired ownerRequest.body.quantity = true ∧
    validRequired ownerRequest.body.pickupTime = true ∧
    (createDonation 50 sharedStore ownerRequest).response.status = 201 ∧
    (createDonation 50 sharedStore ownerRequest).store.donations =
      sharedStore.donations ++
        [{ _id := 4, category := "vegan", description := "rice", quantity := 4,
           pickupTime := 3000, isAvailable := some true, restaurant := restaurantA._id,
           createdAt := ((50 : Date) : WithBot Date) }] ∧
    (∀ d ∈ (createDonation 50 sharedStore ownerRequest).store.donations,
      d.restaurant ≠ restaurantD._id) ∧
    ¬ ∃ d, (createDonation 50 sharedStore ownerRequest).store.donations =
        sharedStore.donations ++ [d] ∧
      d.restaurant = restaurantD._id ∧ d.isAvailable = some true := by
  have hall : ∀ d ∈ (createDonation 50 sharedStore ownerRequest).store.donations,
      d.restaurant ≠ restaurantD._id := by decide
  refine ⟨by decide, by decide, by decide, by decide, by decide, by decide, by decide,
    by decide, hall, ?_⟩
  rintro ⟨d, hd, hr, -⟩
  exact hall d (by rw [hd]; simp) hr

/-- C4, amended: whenever the requester owns a restaurant and the body's category,
description, quantity and pickupTime pass the schema's validators, `createDonation`
answers 201 and the donations collection grows by exactly one document, the one returned,
whose restaurant is the id of `r`, the first restaurant of the store that the requester
owns (the one `Restaurant.findOne({ user })` resolves; it is the restaurant `r0` when the
requester owns no other), and whose `isAvailable` is true; the restaurants are untouched,
and every body with the same four values gives the same outcome, whatever its other keys
(`isAvailable`, `restaurant`, `createdAt`). -/
theorem createDonation_first_owned (now : Date) (s : Store) (req : Request)
    (r0 : Restaurant)
    (hmem : r0 ∈ s.restaurants) (hown : r0.user = req.user._id)
    (hc : validCategory req.body.category = true)
    (hd : validDescription req.body.description = true)
    (hq : validRequired req.body.quantity = true)
    (hp : validRequired req.body.pickupTime = true) :
    ∃ r pre post,
      s.restaurants = pre ++ r :: post ∧ (∀ a ∈ pre, a.user ≠ req.user._id) ∧
      r.user = req.user._id ∧
      ((∀ r' ∈ s.restaurants, r'.user = req.user._id → r' = r0) → r = r0) ∧
      (createDonation now s req).response.status = 201 ∧
      (createDonation now s req).response.success = true ∧
      (∃ d, (createDonation now s req).store.donations = s.donations ++ [d] ∧
        (createDonation now s req).response.donation = some d ∧
        d.restaurant = r._id ∧ d.isAvailable = some true) ∧
      (createDonation now s req).store.restaurants = s.restaurants ∧
      (∀ b : Body, b.category = req.body.category → b.description = req.body.description →
        b.quantity = req.body.quantity → b.pickupTime = req.body.pickupTime →
        createDonation now s { req with body := b } = createDonation now s req) := by
  obtain ⟨r, pre, post, hf, hl, hpre, hru, huniq⟩ :=
    findOne_of_owned s req.user._id r0 hmem hown
  obtain ⟨h1, h2, h3, h4, h5⟩ := createDonation_resolved now s req r hf hc hd hq hp
  exact ⟨r, pre, post, hl, hpre, hru, huniq, h1, h2, h3, h4, h5⟩

/-- Witness of C4, amended: user 10 owns the restaurants 1 and 3; the body asks for
`isAvailable = false` and for restaurant 2; the donation is linked to restaurant 1. -/
theorem createDonation_first_owned_witness :
    ∃ r pre post,
      sharedStore.restaurants = pre ++ r :: post ∧
      (∀ a ∈ pre, a.user ≠ ownerRequest.user._id) ∧
      r.user = ownerRequest.user._id ∧
      ((∀ r' ∈ sharedStore.restaurants, r'.user = ownerRequest.user._id → r' = restaurantD) →
        r = restaurantD) ∧
      (createDonation 50 sharedStore ownerRequest).response.status = 201 ∧
      (createDonation 50 sharedStore ownerRequest).response.success = true ∧
      (∃ d, (createDonation 50 sharedStore ownerRequest).store.donations =
          sharedStore.donations ++ [d] ∧
        (createDonation 50 sharedStore ownerRequest).response.donation = some d ∧
        d.restaurant = r._id ∧ d.isAvailable = some true) ∧
      (createDonation 50 sharedStore ownerRequest).store.restaurants =
        sharedStore.restaurants ∧
      (∀ b : Body, b.category = ownerRequest.body.category →
        b.description = ownerRequest.body.description →
        b.quantity = ownerRequest.body.quantity →
        b.pickupTime = ownerRequest.body.pickupTime →
        createDonation 50 sharedStore { ownerRequest with body := b } =
          createDonation 50 sharedStore ownerRequest) :=
  createDonation_first_owned 50 sharedStore ownerRequest restaurantD
    (by decide) (by decide) (by decide) (by decide) (by decide) (by decide)

/-! ## Nearby search -/

/-- C5: every donation in the response of `getNearbyDonations` is a donation of the store
with `isAvailable = true` and `pickupTime ≥ now`, and its restaurant id is the id of one of
the restaurants that the store's near-point query returned for the centre
`(parseFloat lng, parseFloat lat)` and the maximum distance `distance * 1000`; so no
donation of a restaurant outside that set is returned. Moreover, when `lat` and `lng` are
present and the near-point query answers `rs`, the response is 200 and lists exactly the
available donations of the restaurants of `rs` whose pickup time has not passed. -/
theorem getNearbyDonations_sound (g : Geo) (now : Date) (s : Store) (req : Request) :
    (∀ d ∈ (getNearbyDonations g now s req).response.docs,
      d ∈ s.donations ∧ d.isAvailable = some true ∧ now ≤ d.pickupTime ∧
      ∃ rs, g.near s.restaurants (g.parseFloat (paramText req.query.lng))
              (g.parseFloat (paramText req.query.lat)) (g.maxDistance req.query.distance)
            = .ok rs ∧
        d.restaurant ∈ rs.map (fun r => r._id)) ∧
    (∀ rs, truthy req.query.lat = true → truthy req.query.lng = true →
      g.near s.restaurants (g.parseFloat (paramText req.query.lng))
        (g.parseFloat (paramText req.query.lat)) (g.maxDistance req.query.distance) = .ok rs →
      (getNearbyDonations g now s req).response.status = 200 ∧
      (getNearbyDonations g now s req).response.docs.Perm
        (s.donations.filter (fun d =>
          decide (d.restaurant ∈ rs.map (fun r => r._id) ∧ d.isAvailable = some true ∧
            now ≤ d.pickupTime)))) := by
  constructor
  · intro d hd
    unfold getNearbyDonations at hd
    split at hd
    · simp [Response.docs] at hd
    · split at hd
      · rename_i rs hrs
        simp only [Response.docs, docs_joined_populate, List.mem_insertionSort,
          Donation.find, List.mem_filter] at hd
        obtain ⟨hmem, htest⟩ := hd
        simp [DonationFilter.test] at htest
        exact ⟨hmem, htest.1.1, htest.2, rs, hrs, by simpa using htest.1.2⟩
      · simp [Response.docs] at hd
  · intro rs hlat hlng hrs
    have hf : (!truthy req.query.lat || !truthy req.query.lng) = false := by
      simp [hlat, hlng]
    refine ⟨by simp [getNearbyDonations, hf, hrs], ?_⟩
    have hdocs : (getNearbyDonations g now s req).response.docs =
        (Donation.find s
          { restaurantIn := some (rs.map (fun r => r._id)), isAvailable := some true,
            pickupTimeGte := some now }).insertionSort byPickupTime := by
      simp [getNearbyDonations, hf, hrs, Response.docs, docs_joined_populate]
    rw [hdocs]
    refine (List.perm_insertionSort byPickupTime _).trans ?_
    apply List.Perm.of_eq
    apply List.filter_congr
    intro d _
    rw [Bool.eq_iff_iff]
    simp [DonationFilter.test]
    tauto

/-- Witness of C5: at time 1000 the search returns donation 1 (restaurant 1, pickup at 2000)
and not donation 2 (pickup at 500) nor donation 3 (restaurant 2, unavailable). -/
theorem getNearbyDonations_sound_witness :
    (getNearbyDonations exampleGeo 1000 exampleStore nearbyRequest).response.docs = [donationA] ∧
    (donationA ∈ exampleStore.donations ∧ donationA.isAvailable = some true ∧
      (1000 : Date) ≤ donationA.pickupTime ∧
      ∃ rs, exampleGeo.near exampleStore.restaurants
              (exampleGeo.parseFloat (paramText nearbyRequest.query.lng))
              (exampleGeo.parseFloat (paramText nearbyRequest.query.lat))
              (exampleGeo.maxDistance nearbyRequest.query.distance) = .ok rs ∧
        donationA.restaurant ∈ rs.map (fun r => r._id)) :=
  ⟨by decide,
   (getNearbyDonations_sound exampleGeo 1000 exampleStore nearbyRequest).1 donationA
     (by decide)⟩

/-- C6: when the query lacks `lat` or lacks `lng` (undefined or the empty string),
`getNearbyRestaurants` and `getNearbyDonations` answer 400 with `success = false` and issue
no store call at all; the store is unchanged. -/
theorem nearby_missing_coordinates (g : Geo) (now : Date) (s : Store) (req : Request)
    (h : req.query.lat = none ∨ req.query.lat = some "" ∨
         req.query.lng = none ∨ req.query.lng = some "") :
    ((getNearbyRestaurants g s req).response.status = 400 ∧
     (getNearbyRestaurants g s req).response.success = false ∧
     (getNearbyRestaurants g s req).calls = [] ∧
     (getNearbyRestaurants g s req).store = s) ∧
    ((getNearbyDonations g now s req).response.status = 400 ∧
     (getNearbyDonations g now s req).response.success = false ∧
     (getNearbyDonations g now s req).calls = [] ∧
     (getNearbyDonations g now s req).store = s) := by
  have hf : (!truthy req.query.lat || !truthy req.query.lng) = true := by
    rcases h with h | h | h | h <;> simp [truthy, h]
  simp [getNearbyRestaurants, getNearbyDonations, hf]

/-- Witness of C6: a search whose `lat` is the empty string. -/
theorem nearby_missing_coordinates_witness :
    ((getNearbyRestaurants exampleGeo exampleStore noLatRequest).response.status = 400 ∧
     (getNearbyRestaurants exampleGeo exampleStore noLatRequest).response.success = false ∧
     (getNearbyRestaurants exampleGeo exampleStore noLatRequest).calls = [] ∧
     (getNearbyRestaurants exampleGeo exampleStore noLatRequest).store = exampleStore) ∧
    ((getNearbyDonations exampleGeo 1000 exampleStore noLatRequest).response.status = 400 ∧
     (getNearbyDonations exampleGeo 1000 exampleStore noLatRequest).response.success = false ∧
     (getNearbyDonations exampleGeo 1000 exampleStore noLatRequest).calls = [] ∧
     (getNearbyDonations exampleGeo 1000 exampleStore noLatRequest).store = exampleStore) :=
  nearby_missing_coordinates exampleGeo 1000 exampleStore noLatRequest (Or.inr (Or.inl rfl))

/-! ## Listings -/

/-- C7: with `isAvailable='true'` in the query, whatever the category parameter (absent, a
string, an array or an operator object), every donation of the response of `getDonations`
has `isAvailable = true`; and `getDonations` answers 200, unless the category is an
operator object that the store rejects. -/
theorem getDonations_available_only (ops : Operators) (s : Store) (req : Request)
    (h : req.query.isAvailable = some (.str "true")) :
    ((∀ kvs, req.query.category = some (.obj kvs) → ∃ p, ops kvs = .ok p) →
      (getDonations ops s req).response.status = 200) ∧
    ∀ d ∈ (getDonations ops s req).response.docs, d.isAvailable = some true := by
  rcases findListed_sound ops s req.query with ⟨kvs, e, hc, ho, hf⟩ | ⟨p, hf⟩
  · refine ⟨?_, ?_⟩
    · intro hacc
      obtain ⟨p, hp⟩ := hacc kvs hc
      rw [hp] at ho
      cases ho
    · intro d hd
      rw [(getDonations_of_error ops s req e hf).2.1] at hd
      simp at hd
  · obtain ⟨hst, hdocs, -, -⟩ := getDonations_of_ok ops s req _ hf
    refine ⟨fun _ => hst, ?_⟩
    intro d hd
    rw [hdocs, List.mem_insertionSort, List.mem_filter] at hd
    have := hd.2
    simp [appliedFilter, availableFilter, h, queryValue_beq] at this
    exact this.2

/-- Witness of C7: the available vegan donations of the example store. -/
theorem getDonations_available_only_witness :
    (getDonations exampleOps exampleStore availableRequest).response.docs = [donationA] ∧
    (getDonations exampleOps exampleStore availableRequest).response.status = 200 ∧
    ∀ d ∈ (getDonations exampleOps exampleStore availableRequest).response.docs,
      d.isAvailable = some true :=
  have h := getDonations_available_only exampleOps exampleStore availableRequest rfl
  ⟨by decide, h.1 (by intro kvs hk; simp [availableRequest] at hk), h.2⟩

/-- When `Restaurant.findOne({ user })` resolves `r` and the body is valid,
`createDonation` succeeds (201), and `getDonationsByRestaurant` for the id of `r` on the
resulting store lists a donation whose category, description, quantity and pickupTime are
those of the body. -/
theorem roundtrip_resolved (now : Date) (s : Store) (req req2 : Request)
    (r : Restaurant)
    (hr : Restaurant.findOne s req.user._id = some r)
    (hc : validCategory req.body.category = true)
    (hd : validDescription req.body.description = true)
    (hq : validRequired req.body.quantity = true)
    (hp : validRequired req.body.pickupTime = true)
    (hid : req2.params.id = r._id) :
    (createDonation now s req).response.status = 201 ∧
    ∃ d ∈ (getDonationsByRestaurant (createDonation now s req).store req2).response.docs,
      req.body.category = .value d.category ∧ req.body.description = .value d.description ∧
      req.body.quantity = .value d.quantity ∧ req.body.pickupTime = .value d.pickupTime := by
  obtain ⟨d, hb, -, hrest, hav, -, h1, h2, h3, h4⟩ :=
    build_of_valid now s.freshId r._id req.body hc hd hq hp
  refine ⟨by simp [createDonation, hr, Donation.create, hb], d, ?_, h1, h2, h3, h4⟩
  simp [createDonation, hr, Donation.create, hb, getDonationsByRestaurant, Response.docs,
    Listing.docs, Donation.find, DonationFilter.test, hrest, hav, hid]

/-- C8, as stated, fails: in a store where user 10 owns the restaurants 1 and 3, user 10
creates a valid donation (201); `getDonationsByRestaurant` for the owned restaurant 3 then
returns the empty list, so it contains no donation with the values of the body. -/
theorem roundtrip_not_each_owned :
    restaurantD ∈ sharedStore.restaurants ∧ restaurantD.user = ownerRequest.user._id ∧
    validCategory ownerRequest.body.category = true ∧
    validDescription ownerRequest.body.description = true ∧
    validRequired ownerRequest.body.quantity = true ∧
    validRequired ownerRequest.body.pickupTime = true ∧
    (createDonation 50 sharedStore ownerRequest).response.status = 201 ∧
    restaurantDRequest.params.id = restaurantD._id ∧
    (getDonationsByRestaurant (createDonation 50 sharedStore ownerRequest).store
      restaurantDRequest).response.status = 200 ∧
    (getDonationsByRestaurant (createDonation 50 sharedStore ownerRequest).store
      restaurantDRequest).response.docs = [] := by
  decide

/-- C8, amended: round trip. Whenever the requester owns a restaurant and the body is
valid, `createDonation` succeeds (201), and `getDonationsByRestaurant` for the id of `r`,
the first restaurant of the store that the requester owns (the one
`Restaurant.findOne({ user })` resolves; it is the restaurant `r0` when the requester owns
no other), lists on the resulting store a donation whose category, description, quantity
and pickupTime are those of the body. -/
theorem roundtrip_first_owned (now : Date) (s : Store) (req : Request) (r0 : Restaurant)
    (hmem : r0 ∈ s.restaurants) (hown : r0.user = req.user._id)
    (hc : validCategory req.body.category = true)
    (hd : validDescription req.body.description = true)
    (hq : validRequired req.body.quantity = true)
    (hp : validRequired req.body.pickupTime = true) :
    ∃ r pre post,
      s.restaurants = pre ++ r :: post ∧ (∀ a ∈ pre, a.user ≠ req.user._id) ∧
      r.user = req.user._id ∧
      ((∀ r' ∈ s.restaurants, r'.user = req.user._id → r' = r0) → r = r0) ∧
      (createDonation now s req).response.status = 201 ∧
      ∀ req2 : Request, req2.params.id = r._id →
        ∃ d ∈ (getDonationsByRestaurant (createDonation now s req).store req2).response.docs,
          req.body.category = .value d.category ∧
          req.body.description = .value d.description ∧
          req.body.quantity = .value d.quantity ∧ req.body.pickupTime = .value d.pickupTime := by
  obtain ⟨r, pre, post, hf, hl, hpre, hru, huniq⟩ :=
    findOne_of_owned s req.user._id r0 hmem hown
  refine ⟨r, pre, post, hl, hpre, hru, huniq,
    (createDonation_resolved now s req r hf hc hd hq hp).1, ?_⟩
  intro req2 hid
  exact (roundtrip_resolved now s req req2 r hf hc hd hq hp hid).2

/-- Witness of C8, amended: user 10 owns the restaurants 1 and 3 and creates a donation;
the listing of the first of them contains it. -/
theorem roundtrip_first_owned_witness :
    ∃ r pre post,
      sharedStore.restaurants = pre ++ r :: post ∧
      (∀ a ∈ pre, a.user ≠ ownerRequest.user._id) ∧
      r.user = ownerRequest.user._id ∧
      ((∀ r' ∈ sharedStore.restaurants, r'.user = ownerRequest.user._id →
        r' = restaurantD) → r = restaurantD) ∧
      (createDonation 50 sharedStore ownerRequest).response.status = 201 ∧
      ∀ req2 : Request, req2.params.id = r._id →
        ∃ d ∈ (getDonationsByRestaurant (createDonation 50 sharedStore ownerRequest).store
            req2).response.docs,
          ownerRequest.body.category = .value d.category ∧
          ownerRequest.body.description = .value d.description ∧
          ownerRequest.body.quantity = .value d.quantity ∧
          ownerRequest.body.pickupTime = .value d.pickupTime :=
  roundtrip_first_owned 50 sharedStore ownerRequest restaurantD
    (by decide) (by decide) (by decide) (by decide) (by decide) (by decide)

/-- C9: `getDonationsByRestaurant` answers 200 with exactly the donations of the store whose
restaurant is the requested id and whose `isAvailable` is true (a permutation of them: none
from another restaurant, none unavailable, none missing), in non-decreasing `pickupTime`
order, and `count` is the length of the list. -/
theorem getDonationsByRestaurant_exact (s : Store) (req : Request) :
    (getDonationsByRestaurant s req).response.status = 200 ∧
    (getDonationsByRestaurant s req).response.docs.Perm
      (s.donations.filter
        (fun d => decide (d.restaurant = req.params.id ∧ d.isAvailable = some true))) ∧
    (getDonationsByRestaurant s req).response.docs.Sorted
      (fun a b => a.pickupTime ≤ b.pickupTime) ∧
    (getDonationsByRestaurant s req).response.count =
      some (getDonationsByRestaurant s req).response.docs.length := by
  refine ⟨rfl, ?_, ?_, rfl⟩
  · simp only [getDonationsByRestaurant, Response.docs, Listing.docs, Donation.find]
    refine (List.perm_insertionSort _ _).trans ?_
    apply List.Perm.of_eq
    apply List.filter_congr
    intro d _
    rw [Bool.eq_iff_iff]
    simp [DonationFilter.test]
    tauto
  · simp only [getDonationsByRestaurant, Response.docs, Listing.docs]
    exact List.sorted_insertionSort byPickupTime _

/-- C10, as stated, fails. With the category key given twice
(`?category=vegan&category=bakery`) the handler copies the array into the filter and
answers 200 with the three donations of the example store, none of which has a category
equal to the query's category; with the empty category `?category=` it applies no
restriction and answers the three donations, none of which has the category `""`. -/
theorem getDonations_not_specFilter :
    ((getDonations exampleOps exampleStore repeatedCategoryRequest).response.status = 200 ∧
      (getDonations exampleOps exampleStore repeatedCategoryRequest).response.docs =
        [donationC, donationB, donationA] ∧
      exampleStore.donations.filter (specFilter repeatedCategoryRequest.query) = [] ∧
      ¬ (getDonations exampleOps exampleStore repeatedCategoryRequest).response.docs.Perm
        (exampleStore.donations.filter (specFilter repeatedCategoryRequest.query))) ∧
    ((getDonations exampleOps exampleStore emptyCategoryRequest).response.status = 200 ∧
      (getDonations exampleOps exampleStore emptyCategoryRequest).response.docs =
        [donationC, donationB, donationA] ∧
      exampleStore.donations.filter (specFilter emptyCategoryRequest.query) = [] ∧
      ¬ (getDonations exampleOps exampleStore emptyCategoryRequest).response.docs.Perm
        (exampleStore.donations.filter (specFilter emptyCategoryRequest.query))) := by
  have h1 : (getDonations exampleOps exampleStore repeatedCategoryRequest).response.docs =
      [donationC, donationB, donationA] := by decide
  have h2 : exampleStore.donations.filter (specFilter repeatedCategoryRequest.query) = [] := by
    decide
  have h3 : (getDonations exampleOps exampleStore emptyCategoryRequest).response.docs =
      [donationC, donationB, donationA] := by decide
  have h4 : exampleStore.donations.filter (specFilter emptyCategoryRequest.query) = [] := by
    decide
  refine ⟨⟨by decide, h1, h2, ?_⟩, ⟨by decide, h3, h4, ?_⟩⟩
  · rw [h1, h2]
    intro hp
    simpa using hp.length_eq
  · rw [h3, h4]
    intro hp
    simpa using hp.length_eq

/-- C10, amended: for every query that the store accepts (`p` is the condition of the
operator object when the category is one), `getDonations` answers 200 with exactly the
donations of the store that pass `appliedFilter` (a permutation of them): the category
equals the query's when that is a non-empty string, is one of the values when the key is
repeated, satisfies the operators of an operator object, `isAvailable` equals the boolean
`query.isAvailable === 'true'` when a non-empty `isAvailable` is given, and an absent or
empty parameter puts no restriction; they come in non-increasing `createdAt` order, and
`count` is the number of donations returned. -/
theorem getDonations_exact (ops : Operators) (s : Store) (req : Request)
    (p : Donation → Bool)
    (hacc : ∀ kvs, req.query.category = some (.obj kvs) → ops kvs = .ok p) :
    (getDonations ops s req).response.status = 200 ∧
    (getDonations ops s req).response.docs.Perm
      (s.donations.filter (appliedFilter req.query p)) ∧
    (getDonations ops s req).response.docs.Sorted (fun a b => b.createdAt ≤ a.createdAt) ∧
    (getDonations ops s req).response.count =
      some (getDonations ops s req).response.docs.length := by
  obtain ⟨hst, hdocs, hcount, -⟩ :=
    getDonations_of_ok ops s req _ (findListed_ok ops s req.query p hacc)
  refine ⟨hst, ?_, ?_, hcount⟩
  · rw [hdocs]
    exact List.perm_insertionSort _ _
  · rw [hdocs]
    exact List.sorted_insertionSort byCreatedAtDesc _

/-- Witness of C10, amended: the available vegan donations, and the donations whose
category is not `vegan` (`?category[$ne]=vegan`). -/
theorem getDonations_exact_witness :
    ((getDonations exampleOps exampleStore availableRequest).response.status = 200 ∧
      (getDonations exampleOps exampleStore availableRequest).response.docs.Perm
        (exampleStore.donations.filter (appliedFilter availableRequest.query fun _ => true)) ∧
      (getDonations exampleOps exampleStore availableRequest).response.docs.Sorted
        (fun a b => b.createdAt ≤ a.createdAt) ∧
      (getDonations exampleOps exampleStore availableRequest).response.count =
        some (getDonations exampleOps exampleStore availableRequest).response.docs.length) ∧
    (getDonations exampleOps exampleStore notVeganRequest).response.docs = [donationB] ∧
    (getDonations exampleOps exampleStore notVeganRequest).response.docs.Perm
      (exampleStore.donations.filter
        (appliedFilter notVeganRequest.query fun d => d.category != "vegan")) :=
  ⟨getDonations_exact exampleOps exampleStore availableRequest (fun _ => true)
      (by intro kvs hk; simp [availableRequest] at hk),
    by decide,
    (getDonations_exact exampleOps exampleStore notVeganRequest
      (fun d => d.category != "vegan")
      (by
        intro kvs hk
        simp only [notVeganRequest, Option.some.injEq, QueryValue.obj.injEq] at hk
        rw [← hk]
        rfl)).2.1⟩

/-! ## Further lemmas on the model layer -/

/-- A built document carries the restaurant, the identifier and the quantity it was given. -/
theorem build_some (now : Date) (id : ObjectId) (o : Body) (d : Donation)
    (h : Donation.build now id o = some d) :
    d._id = id ∧ o.restaurant = .value d.restaurant ∧ o.quantity = .value d.quantity ∧
    validCategory o.category = true ∧ validDescription o.description = true ∧
    validRequired o.quantity = true ∧ validRequired o.pickupTime = true := by
  unfold Donation.build at h
  split at h
  · rename_i c ds q p r hc hds hq hp hr
    split at h
    · split at h
      · rename_i hv
        simp only [Option.some.injEq] at h
        subst h
        simp only [Bool.and_eq_true] at hv
        simp [hq, hp, hr, hv.1, hv.2, validRequired]
      · simp at h
    · simp at h
  · simp at h

/-- A document is built only from paths that validate. -/
theorem build_none_of_invalid (now : Date) (id : ObjectId) (o : Body)
    (h : (validCategory o.category && validDescription o.description &&
          validRequired o.quantity && validRequired o.pickupTime) = false) :
    Donation.build now id o = none := by
  cases hb : Donation.build now id o with
  | none => rfl
  | some d =>
    obtain ⟨-, -, -, h1, h2, h3, h4⟩ := build_some now id o d hb
    simp [h1, h2, h3, h4] at h

/-- The documents after `modifyFirst` are documents of the list or images of them. -/
theorem mem_modifyFirst (id : ObjectId) (f : Donation → Donation) (l : List Donation)
    (d : Donation) (h : d ∈ modifyFirst id f l) : d ∈ l ∨ ∃ x ∈ l, d = f x := by
  induction l with
  | nil => simp [modifyFirst] at h
  | cons a t ih =>
    unfold modifyFirst at h
    split at h
    · rcases List.mem_cons.mp h with h | h
      · exact Or.inr ⟨a, List.mem_cons_self _ _, h⟩
      · exact Or.inl (List.mem_cons_of_mem _ h)
    · rcases List.mem_cons.mp h with h | h
      · exact Or.inl (h ▸ List.mem_cons_self _ _)
      · rcases ih h with h | ⟨x, hx, hd⟩
        · exact Or.inl (List.mem_cons_of_mem _ h)
        · exact Or.inr ⟨x, List.mem_cons_of_mem _ hx, hd⟩

/-- When `d` is the document found under `id`, `modifyFirst` rewrites `d` where it stands
and nothing else. -/
theorem modifyFirst_of_find (id : ObjectId) (f : Donation → Donation) (l : List Donation)
    (d : Donation) (h : l.find? (fun x => x._id == id) = some d) :
    ∃ pre post, l = pre ++ d :: post ∧ (∀ a ∈ pre, a._id ≠ id) ∧
      modifyFirst id f l = pre ++ f d :: post := by
  induction l with
  | nil => simp at h
  | cons a t ih =>
    by_cases ha : a._id = id
    · have : a = d := by simpa [List.find?_cons, ha] using h
      subst this
      exact ⟨[], t, rfl, by simp, by simp [modifyFirst, ha]⟩
    · have ht : t.find? (fun x => x._id == id) = some d := by
        simpa [List.find?_cons, ha] using h
      obtain ⟨pre, post, hl, hpre, hm⟩ := ih ht
      refine ⟨a :: pre, post, by simp [hl], ?_, by simp [modifyFirst, ha, hm]⟩
      intro x hx
      rcases List.mem_cons.mp hx with rfl | hx
      · exact ha
      · exact hpre x hx

/-- With unique identifiers, erasing the first document under `id` removes every document
under `id`. -/
theorem eraseP_eq_filter_of_nodup (id : ObjectId) (l : List Donation)
    (h : (l.map (fun d : Donation => d._id)).Nodup) :
    l.eraseP (fun x => x._id == id) = l.filter (fun x => x._id != id) := by
  induction l with
  | nil => rfl
  | cons a t ih =>
    simp only [List.map_cons, List.nodup_cons] at h
    by_cases ha : a._id = id
    · have hnot : ∀ x ∈ t, x._id ≠ id := by
        intro x hx hxid
        exact h.1 (List.mem_map.mpr ⟨x, hx, by rw [hxid, ha]⟩)
      have hfil : t.filter (fun x => x._id != id) = t := by
        rw [List.filter_eq_self]
        intro x hx
        simpa using hnot x hx
      simp [ha, hfil]
    · simp [ha, ih h.2]

/-- The donations of a response of `getDonations` are donations of the store. -/
theorem getDonations_docs_subset (ops : Operators) (s : Store) (req : Request) (d : Donation)
    (h : d ∈ (getDonations ops s req).response.docs) : d ∈ s.donations := by
  rcases findListed_sound ops s req.query with ⟨kvs, e, -, -, hf⟩ | ⟨p, hf⟩
  · rw [(getDonations_of_error ops s req e hf).2.1] at h
    simp at h
  · rw [(getDonations_of_ok ops s req _ hf).2.1, List.mem_insertionSort, List.mem_filter] at h
    exact h.1

/-- The donations of a response of `getDonationsByRestaurant` are donations of the store. -/
theorem getDonationsByRestaurant_docs_subset (s : Store) (req : Request) (d : Donation)
    (h : d ∈ (getDonationsByRestaurant s req).response.docs) : d ∈ s.donations := by
  simp only [getDonationsByRestaurant, Response.docs, Listing.docs, List.mem_insertionSort,
    Donation.find, List.mem_filter] at h
  exact h.1

/-- An update on an identifier that no donation has answers 404 and changes nothing. -/
theorem updateDonation_notFound (s : Store) (req : Request)
    (h : Donation.findById s req.params.id = none) :
    (updateDonation s req).response.status = 404 ∧ (updateDonation s req).store = s := by
  simp [updateDonation, h]

/-- A deletion on an identifier that no donation has answers 404 and changes nothing. -/
theorem deleteDonation_notFound (s : Store) (req : Request)
    (h : Donation.findById s req.params.id = none) :
    (deleteDonation s req).response.status = 404 ∧ (deleteDonation s req).store = s := by
  simp [deleteDonation, h]

/-- An update or a deletion of a donation whose restaurant reference matches no restaurant
reads `restaurant.user` on `null`: the handlers answer 500 with the `TypeError`. -/
theorem missingRestaurant_typeError (s : Store) (req : Request) (d : Donation)
    (hd : Donation.findById s req.params.id = some d)
    (hr : Restaurant.findById s d.restaurant = none) :
    ((updateDonation s req).response.status = 500 ∧
      (updateDonation s req).response.message = some (.ofError .typeError) ∧
      (updateDonation s req).store = s) ∧
    ((deleteDonation s req).response.status = 500 ∧
      (deleteDonation s req).response.message = some (.ofError .typeError) ∧
      (deleteDonation s req).store = s) := by
  simp [updateDonation, deleteDonation, hd, hr]

/-- What `createDonation` does to the store: nothing, or it appends the document built
for the restaurant that `findOne` resolved, and then it answers 201 with that document. -/
theorem createDonation_store (now : Date) (s : Store) (req : Request) :
    (createDonation now s req).store = s ∨
    ∃ r d, Restaurant.findOne s req.user._id = some r ∧
      Donation.build now s.freshId
        { category := req.body.category, description := req.body.description,
          quantity := req.body.quantity, pickupTime := req.body.pickupTime,
          restaurant := .value r._id } = some d ∧
      (createDonation now s req).store = { s with donations := s.donations ++ [d] } ∧
      (createDonation now s req).response =
        { status := 201, success := true, donation := some d } := by
  cases hr : Restaurant.findOne s req.user._id with
  | none => left; simp [createDonation, hr]
  | some r =>
    cases hb : Donation.build now s.freshId
        { category := req.body.category, description := req.body.description,
          quantity := req.body.quantity, pickupTime := req.body.pickupTime,
          restaurant := .value r._id } with
    | none => left; simp [createDonation, hr, Donation.create, hb]
    | some d => right; exact ⟨r, d, rfl, hb, by simp [createDonation, hr, Donation.create, hb]⟩

/-- What `deleteDonation` does to the store: nothing, or it removes the document found
under the id, for its owner, and then it answers 200. -/
theorem deleteDonation_store (s : Store) (req : Request) :
    (deleteDonation s req).store = s ∨
    ∃ d, Donation.findById s req.params.id = some d ∧
      (deleteDonation s req).store = Donation.remove s d ∧
      (deleteDonation s req).response.status = 200 := by
  cases hd : Donation.findById s req.params.id with
  | none => left; simp [deleteDonation, hd]
  | some d =>
    cases hr : Restaurant.findById s d.restaurant with
    | none => left; simp [deleteDonation, hd, hr]
    | some r =>
      by_cases hu : r.user = req.user._id
      · right; exact ⟨d, rfl, by simp [deleteDonation, hd, hr, hu]⟩
      · left; simp [deleteDonation, hd, hr, hu]

/-- What `updateDonation` does to the store: nothing, or the patch casts and validates and
the document found under the id is rewritten where it stands, and then it answers 200 with
the document as rewritten. -/
theorem updateDonation_store (s : Store) (req : Request) :
    (updateDonation s req).store = s ∨
    ∃ d, Donation.findById s req.params.id = some d ∧
      req.body.castFails = false ∧ req.body.updateValid = true ∧
      (updateDonation s req).store =
        { s with donations :=
            modifyFirst req.params.id (fun x => x.patch req.body) s.donations } ∧
      (updateDonation s req).response =
        { status := 200, success := true, donation := some (d.patch req.body) } := by
  cases hd : Donation.findById s req.params.id with
  | none => left; simp [updateDonation, hd]
  | some d =>
    cases hr : Restaurant.findById s d.restaurant with
    | none => left; simp [updateDonation, hd, hr]
    | some r =>
      by_cases hu : r.user = req.user._id
      · by_cases hc : req.body.castFails = true
        · left; simp [updateDonation, hd, hr, hu, Donation.findByIdAndUpdate, hc]
        · by_cases hv : req.body.updateValid = true
          · right
            simp only [Bool.not_eq_true] at hc
            exact ⟨d, rfl, hc, hv,
              by simp [updateDonation, hd, hr, hu, Donation.findByIdAndUpdate, hc, hv]⟩
          · left; simp [updateDonation, hd, hr, hu, Donation.findByIdAndUpdate, hc, hv]
      · left; simp [updateDonation, hd, hr, hu]

/-! ## Missing documents -/

/-- C11: the code at the failing input. In the example store the owner moves donation 1 to
the restaurant id 99, which no restaurant has (the update answers 200); a further
`updateDonation` on donation 1 then finds the donation but not its restaurant and answers
500 with the `TypeError` of `restaurant.user`, not 404. An update on an id that matches no
donation (id 42) does answer 404. -/
theorem updateDonation_missingRestaurant_status :
    (updateDonation exampleStore relinkRequest).response.status = 200 ∧
    Donation.findById orphanStore ownerPatchRequest.params.id =
      some { donationA with restaurant := 99 } ∧
    Restaurant.findById orphanStore 99 = none ∧
    (updateDonation orphanStore ownerPatchRequest).response.status = 500 ∧
    (updateDonation orphanStore ownerPatchRequest).response.message =
      some (.ofError .typeError) ∧
    (updateDonation orphanStore ownerPatchRequest).response.status ≠ 404 ∧
    (updateDonation orphanStore ownerPatchRequest).store = orphanStore ∧
    (updateDonation exampleStore { ownerPatchRequest with params := ⟨42⟩ }).response.status
      = 404 := by
  decide

/-! ## References to restaurants -/

/-- C12, as stated, fails: the example store has every donation referencing an existing
restaurant; the owner's update of donation 1 with the patch `restaurant = 99` succeeds
(200) and leaves donation 1 referencing a restaurant that does not exist. -/
theorem updateDonation_breaks_refsOk :
    exampleStore.refsOk ∧
    (updateDonation exampleStore relinkRequest).response.status = 200 ∧
    ¬ (updateDonation exampleStore relinkRequest).store.refsOk := by
  decide

/-- C12, amended: if every donation references an existing restaurant, the same holds
after `createDonation` and after `deleteDonation`, for every request, and after
`updateDonation` for every request whose patch does not set the restaurant path or sets it
to the id of an existing restaurant. -/
theorem refsOk_preserved (now : Date) (s : Store) (reqC reqD reqU : Request)
    (h : s.refsOk)
    (hpatch : ∀ rid, reqU.body.restaurant = .value rid → ∃ r ∈ s.restaurants, r._id = rid) :
    (createDonation now s reqC).store.refsOk ∧
    (deleteDonation s reqD).store.refsOk ∧
    (updateDonation s reqU).store.refsOk := by
  refine ⟨?_, ?_, ?_⟩
  · rcases createDonation_store now s reqC with hs | ⟨r, d, hr, hb, hs, -⟩
    · rw [hs]; exact h
    · rw [hs]
      have hmem : r ∈ s.restaurants := List.mem_of_find?_eq_some hr
      obtain ⟨-, hrest, -⟩ := build_some _ _ _ _ hb
      simp only [Field.value.injEq] at hrest
      intro x hx
      simp only [List.mem_append, List.mem_singleton] at hx
      rcases hx with hx | rfl
      · exact h x hx
      · exact ⟨r, hmem, hrest⟩
  · rcases deleteDonation_store s reqD with hs | ⟨d, -, hs, -⟩
    · rw [hs]; exact h
    · rw [hs]
      intro x hx
      exact h x (List.mem_of_mem_eraseP hx)
  · rcases updateDonation_store s reqU with hs | ⟨d, -, -, -, hs, -⟩
    · rw [hs]; exact h
    · rw [hs]
      intro x hx
      rcases mem_modifyFirst _ _ _ _ hx with hx | ⟨y, hy, rfl⟩
      · exact h x hx
      · cases hres : reqU.body.restaurant with
        | value rid => simpa [Donation.patch, Field.setOn, hres] using hpatch rid hres
        | absent => simpa [Donation.patch, Field.setOn, hres] using h y hy
        | null => simpa [Donation.patch, Field.setOn, hres] using h y hy
        | malformed => simpa [Donation.patch, Field.setOn, hres] using h y hy

/-- Witness of C12, amended: a creation, a deletion and an update of quantity and
availability on the example store. -/
theorem refsOk_preserved_witness :
    (createDonation 50 exampleStore ownerRequest).store.refsOk ∧
    (deleteDonation exampleStore ownerPatchRequest).store.refsOk ∧
    (updateDonation exampleStore ownerPatchRequest).store.refsOk :=
  refsOk_preserved 50 exampleStore ownerRequest ownerPatchRequest ownerPatchRequest
    (by decide) (by intro rid hrid; simp [ownerPatchRequest] at hrid)

/-! ## Validation -/

/-- C13: a write whose category is a string outside the enumeration is rejected. For every
`createDonation` request with such a category, and every `updateDonation` request (by the
owner or not) whose patch sets such a category, the response has `success = false` and the
store is unchanged: nothing is created, and the existing donation keeps its category. -/
theorem category_outside_enum_rejected (now : Date) (s : Store) (req : Request) (c : String)
    (hc : req.body.category = .value c) (hout : c ∉ categoryEnum) :
    ((createDonation now s req).response.success = false ∧
      (createDonation now s req).store = s) ∧
    ((updateDonation s req).response.success = false ∧
      (updateDonation s req).store = s ∧
      ∀ d, Donation.findById s req.params.id = some d →
        Donation.findById (updateDonation s req).store req.params.id = some d) := by
  have hcat : validCategory req.body.category = false := by
    simp [hc, validCategory, hout]
  constructor
  · cases hr : Restaurant.findOne s req.user._id with
    | none => simp [createDonation, hr]
    | some r =>
      have hb := build_none_of_invalid now s.freshId
        { category := req.body.category, description := req.body.description,
          quantity := req.body.quantity, pickupTime := req.body.pickupTime,
          restaurant := .value r._id } (by simp [hcat])
      simp [createDonation, hr, Donation.create, hb]
  · have hv : req.body.updateValid = false := by
      have hcat2 : validCategory (Field.value c) = false := by rw [← hc]; exact hcat
      simp [Body.updateValid, updateOk, hc, hcat2, Field.isAbsent]
    have hmain : (updateDonation s req).response.success = false ∧
        (updateDonation s req).store = s := by
      rcases updateDonation_store s req with hs | ⟨d, -, -, hval, -, -⟩
      · refine ⟨?_, hs⟩
        cases hd : Donation.findById s req.params.id with
        | none => simp [updateDonation, hd]
        | some d =>
          cases hr : Restaurant.findById s d.restaurant with
          | none => simp [updateDonation, hd, hr]
          | some r =>
            by_cases hu : r.user = req.user._id
            · by_cases hcf : req.body.castFails = true
              · simp [updateDonation, hd, hr, hu, Donation.findByIdAndUpdate, hcf]
              · simp [updateDonation, hd, hr, hu, Donation.findByIdAndUpdate, hcf, hv]
            · simp [updateDonation, hd, hr, hu]
      · rw [hv] at hval
        exact absurd hval (by decide)
    refine ⟨hmain.1, hmain.2, ?_⟩
    intro d hd
    rw [hmain.2]
    exact hd

/-- Witness of C13: user 10 tries to create, and to set on donation 1, the category
`pizza`. -/
theorem category_outside_enum_rejected_witness :
    ((createDonation 50 exampleStore pizzaPatchRequest).response.success = false ∧
      (createDonation 50 exampleStore pizzaPatchRequest).store = exampleStore) ∧
    ((updateDonation exampleStore pizzaPatchRequest).response.success = false ∧
      (updateDonation exampleStore pizzaPatchRequest).store = exampleStore ∧
      ∀ d, Donation.findById exampleStore pizzaPatchRequest.params.id = some d →
        Donation.findById (updateDonation exampleStore pizzaPatchRequest).store
          pizzaPatchRequest.params.id = some d) :=
  category_outside_enum_rejected 50 exampleStore pizzaPatchRequest "pizza" rfl (by decide)

/-- C14, as stated, fails: user 10 owns restaurant 1 and posts a donation of category
`pizza`, which fails schema validation; the status of the response is 500, not 400. The
same holds for a body without a quantity. -/
theorem createDonation_invalid_not_400 :
    Restaurant.findOne exampleStore pizzaRequest.user._id = some restaurantA ∧
    validCategory pizzaRequest.body.category = false ∧
    (createDonation 50 exampleStore pizzaRequest).response.status = 500 ∧
    (createDonation 50 exampleStore pizzaRequest).response.status ≠ 400 ∧
    validRequired noQuantityRequest.body.quantity = false ∧
    (createDonation 50 exampleStore noQuantityRequest).response.status = 500 := by
  decide

/-- C14, amended: for every `createDonation` request by the owner of a restaurant whose
body fails schema validation (the category, the description, the quantity or the pickup
time does not pass its validators), the response is the one of the `catch` block: status
500, `success = false` and the message of the validation error, and nothing is persisted. -/
theorem createDonation_invalid_500 (now : Date) (s : Store) (req : Request) (r : Restaurant)
    (hr : Restaurant.findOne s req.user._id = some r)
    (hinv : (validCategory req.body.category && validDescription req.body.description &&
              validRequired req.body.quantity && validRequired req.body.pickupTime) = false) :
    (createDonation now s req).response.status = 500 ∧
    (createDonation now s req).response.success = false ∧
    (createDonation now s req).response.message = some (.ofError .validation) ∧
    (createDonation now s req).store = s := by
  have hb := build_none_of_invalid now s.freshId
    { category := req.body.category, description := req.body.description,
      quantity := req.body.quantity, pickupTime := req.body.pickupTime,
      restaurant := .value r._id } hinv
  simp [createDonation, hr, Donation.create, hb]

/-- Witness of C14, amended: the creation of a `pizza` donation by user 10. -/
theorem createDonation_invalid_500_witness :
    (createDonation 50 exampleStore pizzaRequest).response.status = 500 ∧
    (createDonation 50 exampleStore pizzaRequest).response.success = false ∧
    (createDonation 50 exampleStore pizzaRequest).response.message =
      some (.ofError .validation) ∧
    (createDonation 50 exampleStore pizzaRequest).store = exampleStore :=
  createDonation_invalid_500 50 exampleStore pizzaRequest restaurantA (by decide) (by decide)

/-- C17, as stated, fails: user 10 posts a donation with the quantity zero, and one with
the quantity -5/2, which is negative and is no integer; both are accepted (201) and
persisted with that quantity. -/
theorem createDonation_accepts_any_quantity :
    (createDonation 50 exampleStore zeroRequest).response.status = 201 ∧
    (∃ d ∈ (createDonation 50 exampleStore zeroRequest).store.donations,
      d ∉ exampleStore.donations ∧ d.quantity = 0) ∧
    (createDonation 50 exampleStore fractionRequest).response.status = 201 ∧
    (∃ d ∈ (createDonation 50 exampleStore fractionRequest).store.donations,
      d ∉ exampleStore.donations ∧ d.quantity = -5 / 2) ∧
    ((-5 / 2 : Rat) < 0 ∧ ¬ ∃ n : Int, (-5 / 2 : Rat) = n) := by
  refine ⟨by decide, ?_, by decide, ?_, by norm_num, ?_⟩
  · refine ⟨{ _id := 4, category := "vegan", description := "rice", quantity := 0,
              pickupTime := 3000, isAvailable := some true, restaurant := 1,
              createdAt := ((50 : Date) : WithBot Date) }, by decide, by decide, rfl⟩
  · refine ⟨{ _id := 4, category := "vegan", description := "rice", quantity := -5 / 2,
              pickupTime := 3000, isAvailable := some true, restaurant := 1,
              createdAt := ((50 : Date) : WithBot Date) }, ?_, ?_, rfl⟩
    · simp [createDonation, Restaurant.findOne, exampleStore, restaurantA, restaurantB,
        fractionRequest, Donation.create, Donation.build, castIsAvailable, castCreatedAt,
        validCategory, validDescription, categoryEnum, Store.freshId, donationA, donationB,
        donationC]
    · simp [exampleStore, donationA, donationB, donationC]
  · rintro ⟨n, hn⟩
    have h2 : (2 : Rat) * n = -5 := by linarith
    have h3 : (2 : Int) * n = -5 := by exact_mod_cast h2
    omega

/-- C17, amended: the only validator of `quantity` is `required`. A `createDonation`
request whose quantity is missing, `null` or not a number is rejected and persists nothing;
a successful `createDonation` persists exactly one donation, whose quantity is the number
the body carries; and for the owner of a restaurant with a valid category, description and
pickup time, every number `q` is accepted (201) and persisted as the quantity, be it zero,
negative or non-integral. -/
theorem createDonation_quantity (now : Date) (s : Store) (req : Request) :
    (validRequired req.body.quantity = false →
      (createDonation now s req).response.success = false ∧
      (createDonation now s req).store = s) ∧
    ((createDonation now s req).response.status = 201 →
      ∃ d, (createDonation now s req).store.donations = s.donations ++ [d] ∧
        req.body.quantity = .value d.quantity) ∧
    (∀ (r : Restaurant) (q : Rat), Restaurant.findOne s req.user._id = some r →
      validCategory req.body.category = true → validDescription req.body.description = true →
      validRequired req.body.pickupTime = true → req.body.quantity = .value q →
      (createDonation now s req).response.status = 201 ∧
      ∃ d, (createDonation now s req).store.donations = s.donations ++ [d] ∧
        d.quantity = q) := by
  refine ⟨?_, ?_, ?_⟩
  · intro hq
    cases hr : Restaurant.findOne s req.user._id with
    | none => simp [createDonation, hr]
    | some r =>
      have hb := build_none_of_invalid now s.freshId
        { category := req.body.category, description := req.body.description,
          quantity := req.body.quantity, pickupTime := req.body.pickupTime,
          restaurant := .value r._id } (by simp [hq])
      simp [createDonation, hr, Donation.create, hb]
  · intro hst
    rcases createDonation_store now s req with hs | ⟨r, d, -, hb, hs, -⟩
    · exfalso
      cases hr : Restaurant.findOne s req.user._id with
      | none => simp [createDonation, hr] at hst
      | some r =>
        cases hb : Donation.build now s.freshId
            { category := req.body.category, description := req.body.description,
              quantity := req.body.quantity, pickupTime := req.body.pickupTime,
              restaurant := .value r._id } with
        | none => simp [createDonation, hr, Donation.create, hb] at hst
        | some d =>
          have hs2 : (createDonation now s req).store.donations = s.donations ++ [d] := by
            simp [createDonation, hr, Donation.create, hb]
          rw [hs] at hs2
          have := congrArg List.length hs2
          simp at this
    · obtain ⟨-, -, hq, -⟩ := build_some _ _ _ _ hb
      exact ⟨d, by rw [hs], hq⟩
  · intro r q hr hc hd hp hq
    have hqv : validRequired req.body.quantity = true := by simp [hq, validRequired]
    obtain ⟨d, hb, -, -, -, -, -, -, hq2, -⟩ :=
      build_of_valid now s.freshId r._id req.body hc hd hqv hp
    refine ⟨by simp [createDonation, hr, Donation.create, hb], d,
      by simp [createDonation, hr, Donation.create, hb], ?_⟩
    rw [hq] at hq2
    simp only [Field.value.injEq] at hq2
    exact hq2.symm

/-- Witness of C17, amended: a creation without a quantity is rejected; the creation with
the quantity zero succeeds and persists the quantity zero. -/
theorem createDonation_quantity_witness :
    ((createDonation 50 exampleStore noQuantityRequest).response.success = false ∧
      (createDonation 50 exampleStore noQuantityRequest).store = exampleStore) ∧
    ((createDonation 50 exampleStore zeroRequest).response.status = 201 ∧
      ∃ d, (createDonation 50 exampleStore zeroRequest).store.donations =
          exampleStore.donations ++ [d] ∧ d.quantity = 0) :=
  ⟨(createDonation_quantity 50 exampleStore noQuantityRequest).1 (by decide),
   (createDonation_quantity 50 exampleStore zeroRequest).2.2 restaurantA 0
     (by decide) (by decide) (by decide) (by decide) rfl⟩

/-! ## Registration of a restaurant -/

/-- C15: when the geocoder answers and the restaurant passes its schema, `registerRestaurant`
answers 201 and persists exactly one restaurant, the one returned, whose user is the
requester and whose location is the point `[longitude, latitude]` of the first geocoding
result, and `[0, 0]` when the list of results is empty (in general each coordinate is
`location?.key || 0` for the first result `location`). -/
theorem registerRestaurant_location
    (geocode : Field String → Except JsError (List GeoEntry)) (schema : RestaurantSchema)
    (s : Store) (req : Request) (results : List GeoEntry) (t : RestaurantText)
    (hg : geocode req.body.address = .ok results)
    (ht : schema.check s.restaurants
      { name := req.body.name, email := req.body.email, address := req.body.address,
        phone := req.body.phone } = .ok t) :
    (registerRestaurant geocode schema s req).response.status = 201 ∧
    ∃ r, (registerRestaurant geocode schema s req).store.restaurants = s.restaurants ++ [r] ∧
      (registerRestaurant geocode schema s req).response.restaurant = some r ∧
      (registerRestaurant geocode schema s req).store.donations = s.donations ∧
      r.user = req.user._id ∧
      r.location = { lng := orZero (results.head?.bind fun l => l.longitude)
                     lat := orZero (results.head?.bind fun l => l.latitude) } ∧
      (results = [] → r.location = { lng := 0, lat := 0 }) ∧
      (∀ (x y : Rat) (rest : List GeoEntry),
        results = { longitude := some x, latitude := some y } :: rest →
        r.location = { lng := x, lat := y }) := by
  refine ⟨by simp [registerRestaurant, hg, Restaurant.create, ht], ?_⟩
  refine ⟨{ _id := s.freshRestaurantId, name := t.name, email := t.email,
            address := t.address, phone := t.phone, user := req.user._id,
            location :=
              { lng := orZero (results.head?.bind fun l => l.longitude)
                lat := orZero (results.head?.bind fun l => l.latitude) } },
    by simp [registerRestaurant, hg, Restaurant.create, ht],
    by simp [registerRestaurant, hg, Restaurant.create, ht],
    by simp [registerRestaurant, hg, Restaurant.create, ht], rfl, rfl, ?_, ?_⟩
  · intro hres
    simp [hres, orZero]
  · intro x y rest hres
    have hz : ∀ v : Rat, orZero (some v) = v := by
      intro v
      by_cases h : v = 0
      · simp [orZero, h]
      · simp [orZero, h]
    simp [hres, hz]

/-- Witness of C15: user 30 registers a restaurant at an address for which the geocoder
has two results, the first at longitude -87 and latitude 41. -/
theorem registerRestaurant_location_witness :
    (registerRestaurant exampleGeocode exampleSchema exampleStore registerRequest).response.status
      = 201 ∧
    ∃ r, (registerRestaurant exampleGeocode exampleSchema exampleStore
        registerRequest).store.restaurants = exampleStore.restaurants ++ [r] ∧
      r.user = 30 ∧ r.location = { lng := -87, lat := 41 } :=
  have h := registerRestaurant_location exampleGeocode exampleSchema exampleStore
    registerRequest
    [{ longitude := some (-87), latitude := some 41 },
     { longitude := some 2, latitude := some 48 }]
    { name := "Urban Plate", email := "hello@urbanplate.com", address := "789 Pine St",
      phone := "555-456-7890" }
    rfl rfl
  ⟨h.1, h.2.elim fun r hr =>
    ⟨r, hr.1, hr.2.2.2.1, hr.2.2.2.2.2.2 (-87) 41 _ rfl⟩⟩

/-! ## The envelope -/

/-- Every handler answers in the uniform envelope when no call throws. -/
theorem run_uniform (h : Handler) (w : World) (s : Store) (req : Request) :
    (h.run w s req).response.uniform := by
  cases h
  · simp only [Handler.run]
    unfold GSC.createDonation
    repeat' split
    all_goals simp [Response.uniform]
  · simp only [Handler.run]
    cases hf : Donation.findListed w.ops s (listFilter req.query) with
    | ok found => simp [getDonations, hf, Response.uniform]
    | error e => simp [getDonations, hf, Response.uniform]
  · simp [Handler.run, getDonationsByRestaurant, Response.uniform]
  · simp only [Handler.run]
    unfold GSC.getNearbyDonations
    repeat' split
    all_goals simp [Response.uniform]
  · simp only [Handler.run]
    unfold GSC.updateDonation
    repeat' split
    all_goals simp [Response.uniform]
  · simp only [Handler.run]
    unfold GSC.deleteDonation
    repeat' split
    all_goals simp [Response.uniform]
  · simp only [Handler.run]
    cases hg : w.geocode req.body.address with
    | error e => simp [registerRestaurant, hg, Response.uniform]
    | ok results =>
      cases hc : w.schema.check s.restaurants
          { name := req.body.name, email := req.body.email, address := req.body.address,
            phone := req.body.phone } with
      | error e => simp [registerRestaurant, hg, Restaurant.create, hc, Response.uniform]
      | ok t => simp [registerRestaurant, hg, Restaurant.create, hc, Response.uniform]
  · simp [Handler.run, getRestaurants, Response.uniform]
  · simp only [Handler.run]
    unfold GSC.getNearbyRestaurants
    repeat' split
    all_goals simp [Response.uniform]
  · simp only [Handler.run]
    unfold GSC.getRestaurant
    repeat' split
    all_goals simp [Response.uniform]

/-- Every call that a handler issues before its last one is a read: a handler writes with
its last call only. -/
theorem run_writes_last (h : Handler) (w : World) (s : Store) (req : Request) :
    ∀ c ∈ (h.run w s req).calls.dropLast, c.writes = false := by
  cases h
  · simp only [Handler.run]
    unfold GSC.createDonation
    repeat' split
    all_goals simp [StoreCall.writes]
  · simp only [Handler.run]
    cases hf : Donation.findListed w.ops s (listFilter req.query) with
    | ok found => simp [getDonations, hf]
    | error e => simp [getDonations, hf]
  · simp [Handler.run, getDonationsByRestaurant]
  · simp only [Handler.run]
    unfold GSC.getNearbyDonations
    repeat' split
    all_goals simp [StoreCall.writes]
  · simp only [Handler.run]
    unfold GSC.updateDonation
    repeat' split
    all_goals simp [StoreCall.writes]
  · simp only [Handler.run]
    unfold GSC.deleteDonation
    repeat' split
    all_goals simp [StoreCall.writes]
  · simp only [Handler.run]
    cases hg : w.geocode req.body.address with
    | error e => simp [registerRestaurant, hg]
    | ok results =>
      cases hc : w.schema.check s.restaurants
          { name := req.body.name, email := req.body.email, address := req.body.address,
            phone := req.body.phone } with
      | error e => simp [registerRestaurant, hg, Restaurant.create, hc]
      | ok t => simp [registerRestaurant, hg, Restaurant.create, hc]
  · simp [Handler.run, getRestaurants]
  · simp only [Handler.run]
    unfold GSC.getNearbyRestaurants
    repeat' split
    all_goals simp [StoreCall.writes]
  · simp only [Handler.run]
    unfold GSC.getRestaurant
    repeat' split
    all_goals simp [StoreCall.writes]

/-- The response when a call throws. -/
theorem catching_of_throw (φ : Throws) (s : Store) (o : Outcome) (issued : List StoreCall)
    (e : JsError) (h : firstThrow φ o.calls = some (issued, e)) :
    (o.catching φ s).response =
      { status := 500, success := false, message := some (.ofError e) } ∧
    (o.catching φ s).store = s := by
  simp [Outcome.catching, h]

/-- The outcome when no call throws. -/
theorem catching_of_none (φ : Throws) (s : Store) (o : Outcome)
    (h : firstThrow φ o.calls = none) : o.catching φ s = o := by
  simp [Outcome.catching, h]

/-- C16: uniform envelope. For every handler of the two controllers, every request and
store, and whichever store calls throw (`φ`), the response has its boolean `success` true
exactly when the status is 200 or 201, its status is one of 200, 201, 400, 403, 404, 500,
and a 500 carries the message of an error. A thrown error yields status 500 with the
message of the error: a store call that throws, the geocoder, the save of a restaurant,
the near-point query, the validation of a new donation, the cast or validation of an
update, the rejection of an operator object in the filter of a listing. -/
theorem envelope_uniform (h : Handler) (w : World) (φ : Throws) (s : Store) (req : Request) :
    ((h.run w s req).catching φ s).response.uniform ∧
    (∀ issued e, firstThrow φ (h.run w s req).calls = some (issued, e) →
      ((h.run w s req).catching φ s).response =
        { status := 500, success := false, message := some (.ofError e) }) ∧
    (∀ e, w.geocode req.body.address = .error e →
      (registerRestaurant w.geocode w.schema s req).response =
        { status := 500, success := false, message := some (.ofError e) }) ∧
    (∀ results e, w.geocode req.body.address = .ok results →
      w.schema.check s.restaurants
        { name := req.body.name, email := req.body.email, address := req.body.address,
          phone := req.body.phone } = .error e →
      (registerRestaurant w.geocode w.schema s req).response =
        { status := 500, success := false, message := some (.ofError e) }) ∧
    (∀ e, truthy req.query.lat = true → truthy req.query.lng = true →
      w.geo.near s.restaurants (w.geo.parseFloat (paramText req.query.lng))
        (w.geo.parseFloat (paramText req.query.lat)) (w.geo.maxDistance req.query.distance)
        = .error e →
      (getNearbyDonations w.geo w.now s req).response =
        { status := 500, success := false, message := some (.ofError e) } ∧
      (getNearbyRestaurants w.geo s req).response =
        { status := 500, success := false, message := some (.ofError e) }) ∧
    (∀ r e, Restaurant.findOne s req.user._id = some r →
      Donation.create w.now s
        { category := req.body.category, description := req.body.description,
          quantity := req.body.quantity, pickupTime := req.body.pickupTime,
          restaurant := .value r._id } = .error e →
      (createDonation w.now s req).response =
        { status := 500, success := false, message := some (.ofError e) }) ∧
    (∀ d r e, Donation.findById s req.params.id = some d →
      Restaurant.findById s d.restaurant = some r → r.user = req.user._id →
      Donation.findByIdAndUpdate s req.params.id req.body = .error e →
      (updateDonation s req).response =
        { status := 500, success := false, message := some (.ofError e) }) ∧
    (∀ e, Donation.findListed w.ops s (listFilter req.query) = .error e →
      (getDonations w.ops s req).response =
        { status := 500, success := false, message := some (.ofError e) }) := by
  refine ⟨?_, ?_, ?_, ?_, ?_, ?_, ?_, fun e he => (getDonations_of_error _ s req e he).1⟩
  · cases hf : firstThrow φ (h.run w s req).calls with
    | none =>
      rw [catching_of_none φ s _ hf]
      exact run_uniform h w s req
    | some p =>
      obtain ⟨issued, e⟩ := p
      rw [(catching_of_throw φ s _ issued e hf).1]
      simp [Response.uniform]
  · intro issued e hf
    exact (catching_of_throw φ s _ issued e hf).1
  · intro e hg
    simp [registerRestaurant, hg]
  · intro results e hg hc
    simp [registerRestaurant, hg, Restaurant.create, hc]
  · intro e hlat hlng hn
    simp [getNearbyDonations, getNearbyRestaurants, hlat, hlng, hn]
  · intro r e hr hc
    simp [createDonation, hr, hc]
  · intro d r e hd hr hu he
    simp [updateDonation, hd, hr, hu, he]

/-! ## Deletion, update, expiry -/

/-- The donations of a response of `getNearbyDonations` are donations of the store whose
pickup time has not passed. -/
theorem getNearbyDonations_docs_subset (g : Geo) (now : Date) (s : Store) (req : Request)
    (d : Donation) (h : d ∈ (getNearbyDonations g now s req).response.docs) :
    d ∈ s.donations ∧ now ≤ d.pickupTime := by
  unfold getNearbyDonations at h
  split at h
  · simp [Response.docs] at h
  · split at h
    · simp only [Response.docs, docs_joined_populate, List.mem_insertionSort,
        Donation.find, List.mem_filter] at h
      obtain ⟨hmem, htest⟩ := h
      simp [DonationFilter.test] at htest
      exact ⟨hmem, htest.2⟩
    · simp [Response.docs] at h

/-- With unique identifiers, a donation of the store is determined by its `_id`. -/
theorem eq_of_id_eq (s : Store) (hu : s.idsUnique) (x d : Donation)
    (hx : x ∈ s.donations) (hd : d ∈ s.donations) (h : x._id = d._id) : x = d :=
  List.inj_on_of_nodup_map hu hx hd h

/-- C18: deleted is terminal. In a store with unique ids, when the owner of the restaurant
of donation `d` deletes `d`, the handler answers 200; exactly `d` is removed, every other
donation and every restaurant is unchanged; afterwards `d` appears in no result of
`getDonations`, `getDonationsByRestaurant` or `getNearbyDonations`, and a further
`updateDonation` or `deleteDonation` on the id of `d` answers 404. -/
theorem deleteDonation_terminal (s : Store) (req : Request) (d : Donation) (r : Restaurant)
    (hu : s.idsUnique)
    (hd : Donation.findById s req.params.id = some d)
    (hr : Restaurant.findById s d.restaurant = some r)
    (hown : r.user = req.user._id) :
    (deleteDonation s req).response.status = 200 ∧
    (deleteDonation s req).store.restaurants = s.restaurants ∧
    (deleteDonation s req).store.donations = s.donations.filter (fun x => x._id != d._id) ∧
    (∀ x, x ∈ (deleteDonation s req).store.donations ↔ x ∈ s.donations ∧ x ≠ d) ∧
    (∀ (ops : Operators) (g : Geo) (now : Date) (req' : Request),
      d ∉ (getDonations ops (deleteDonation s req).store req').response.docs ∧
      d ∉ (getDonationsByRestaurant (deleteDonation s req).store req').response.docs ∧
      d ∉ (getNearbyDonations g now (deleteDonation s req).store req').response.docs) ∧
    (∀ req' : Request, req'.params.id = d._id →
      (updateDonation (deleteDonation s req).store req').response.status = 404 ∧
      (deleteDonation (deleteDonation s req).store req').response.status = 404) := by
  have hdmem : d ∈ s.donations := List.mem_of_find?_eq_some hd
  have hstore : (deleteDonation s req).store = Donation.remove s d := by
    simp [deleteDonation, hd, hr, hown]
  have hdon : (deleteDonation s req).store.donations =
      s.donations.filter (fun x => x._id != d._id) := by
    rw [hstore]
    exact eraseP_eq_filter_of_nodup d._id s.donations hu
  have hiff : ∀ x, x ∈ (deleteDonation s req).store.donations ↔ x ∈ s.donations ∧ x ≠ d := by
    intro x
    rw [hdon, List.mem_filter]
    constructor
    · rintro ⟨hx, hne⟩
      refine ⟨hx, ?_⟩
      rintro rfl
      simp at hne
    · rintro ⟨hx, hne⟩
      refine ⟨hx, ?_⟩
      have : x._id ≠ d._id := fun h => hne (eq_of_id_eq s hu x d hx hdmem h)
      simpa using this
  have hnot : d ∉ (deleteDonation s req).store.donations := fun h => ((hiff d).mp h).2 rfl
  have hfind : Donation.findById (deleteDonation s req).store d._id = none := by
    unfold Donation.findById
    rw [List.find?_eq_none]
    intro x hx
    have := ((hiff x).mp hx)
    have hne : x._id ≠ d._id := fun h => this.2 (eq_of_id_eq s hu x d this.1 hdmem h)
    simpa using hne
  refine ⟨by simp [deleteDonation, hd, hr, hown], by rw [hstore]; rfl, hdon, hiff, ?_, ?_⟩
  · intro ops g now req'
    exact ⟨fun h => hnot (getDonations_docs_subset _ _ _ _ h),
      fun h => hnot (getDonationsByRestaurant_docs_subset _ _ _ h),
      fun h => hnot (getNearbyDonations_docs_subset _ _ _ _ _ h).1⟩
  · intro req' hid
    rw [← hid] at hfind
    exact ⟨(updateDonation_notFound _ req' hfind).1, (deleteDonation_notFound _ req' hfind).1⟩

/-- Witness of C18: user 10 deletes donation 1 of the example store. -/
theorem deleteDonation_terminal_witness :
    (deleteDonation exampleStore ownerPatchRequest).response.status = 200 ∧
    (deleteDonation exampleStore ownerPatchRequest).store.donations = [donationB, donationC] ∧
    (updateDonation (deleteDonation exampleStore ownerPatchRequest).store
      ownerPatchRequest).response.status = 404 ∧
    donationA ∉ (getDonations exampleOps (deleteDonation exampleStore ownerPatchRequest).store
      availableRequest).response.docs :=
  have h := deleteDonation_terminal exampleStore ownerPatchRequest donationA restaurantA
    (by decide) (by decide) (by decide) (by decide)
  ⟨h.1, by decide, (h.2.2.2.2.2 ownerPatchRequest rfl).1,
    (h.2.2.2.2.1 exampleOps exampleGeo 1000 availableRequest).1⟩

/-- C19: `updateDonation` by the owner with a patch that casts and passes the update
validators answers 200 with the donation as it is after the update; in the store the
restaurants and every other donation are unchanged, the targeted donation is rewritten
where it stands, its `_id` and every path absent from the patch are unchanged, and a path
the patch gives a value holds that value. -/
theorem updateDonation_frame (s : Store) (req : Request) (d : Donation) (r : Restaurant)
    (hd : Donation.findById s req.params.id = some d)
    (hr : Restaurant.findById s d.restaurant = some r)
    (hown : r.user = req.user._id)
    (hcast : req.body.castFails = false)
    (hval : req.body.updateValid = true) :
    (updateDonation s req).response.status = 200 ∧
    (updateDonation s req).response.donation = some (d.patch req.body) ∧
    Donation.findById (updateDonation s req).store req.params.id = some (d.patch req.body) ∧
    (updateDonation s req).store.restaurants = s.restaurants ∧
    (∃ pre post, s.donations = pre ++ d :: post ∧
      (updateDonation s req).store.donations = pre ++ d.patch req.body :: post) ∧
    ((d.patch req.body)._id = d._id ∧
      (req.body.category = .absent → (d.patch req.body).category = d.category) ∧
      (req.body.description = .absent → (d.patch req.body).description = d.description) ∧
      (req.body.quantity = .absent → (d.patch req.body).quantity = d.quantity) ∧
      (req.body.pickupTime = .absent → (d.patch req.body).pickupTime = d.pickupTime) ∧
      (req.body.isAvailable = .absent → (d.patch req.body).isAvailable = d.isAvailable) ∧
      (req.body.restaurant = .absent → (d.patch req.body).restaurant = d.restaurant) ∧
      (req.body.createdAt = .absent → (d.patch req.body).createdAt = d.createdAt)) ∧
    ((∀ v, req.body.category = .value v → (d.patch req.body).category = v) ∧
      (∀ v, req.body.description = .value v → (d.patch req.body).description = v) ∧
      (∀ v, req.body.quantity = .value v → (d.patch req.body).quantity = v) ∧
      (∀ v, req.body.pickupTime = .value v → (d.patch req.body).pickupTime = v) ∧
      (∀ v, req.body.isAvailable = .value v → (d.patch req.body).isAvailable = some v) ∧
      (∀ v, req.body.restaurant = .value v → (d.patch req.body).restaurant = v) ∧
      (∀ v, req.body.createdAt = .value v →
        (d.patch req.body).createdAt = ((v : Date) : WithBot Date))) := by
  have hstore : (updateDonation s req).store =
      { s with donations :=
          modifyFirst req.params.id (fun x => x.patch req.body) s.donations } := by
    simp [updateDonation, hd, hr, hown, Donation.findByIdAndUpdate, hcast, hval]
  obtain ⟨pre, post, hl, hpre, hm⟩ :=
    modifyFirst_of_find req.params.id (fun x => x.patch req.body) s.donations d hd
  have hid : d._id = req.params.id := by
    have := List.find?_some hd
    simpa using this
  refine ⟨by simp [updateDonation, hd, hr, hown, Donation.findByIdAndUpdate, hcast, hval],
    by simp [updateDonation, hd, hr, hown, Donation.findByIdAndUpdate, hcast, hval],
    ?_, by rw [hstore], ⟨pre, post, hl, by rw [hstore]; exact hm⟩, ?_, ?_⟩
  · rw [hstore]
    unfold Donation.findById
    simp only [hm, List.find?_append]
    have hnone : pre.find? (fun x => x._id == req.params.id) = none := by
      rw [List.find?_eq_none]
      intro x hx
      simpa using hpre x hx
    simp [hnone, List.find?_cons, Donation.patch, hid]
  · refine ⟨rfl, ?_, ?_, ?_, ?_, ?_, ?_, ?_⟩ <;> intro h <;>
      simp [Donation.patch, Field.setOn, Field.setNullable, h]
  · refine ⟨?_, ?_, ?_, ?_, ?_, ?_, ?_⟩ <;> intro v h <;>
      simp [Donation.patch, Field.setOn, Field.setNullable, h]

/-- Witness of C19: user 10 sets the quantity of donation 1 to 7 and marks it
unavailable. -/
theorem updateDonation_frame_witness :
    (updateDonation exampleStore ownerPatchRequest).response.status = 200 ∧
    (updateDonation exampleStore ownerPatchRequest).response.donation =
      some { donationA with quantity := 7, isAvailable := some false } ∧
    (updateDonation exampleStore ownerPatchRequest).store.donations =
      [{ donationA with quantity := 7, isAvailable := some false }, donationB, donationC] ∧
    (donationA.patch ownerPatchRequest.body).category = donationA.category :=
  have h := updateDonation_frame exampleStore ownerPatchRequest donationA restaurantA
    (by decide) (by decide) (by decide) (by decide) (by decide)
  ⟨h.1, by decide, by decide, h.2.2.2.2.2.1.2.1 rfl⟩

/-- C20: no automatic expiry. A donation `d` of the store with `isAvailable = true` whose
pickup time is earlier than the current time is still returned by `getDonations` (without
a category, and without `isAvailable` or with `isAvailable='true'`) and by
`getDonationsByRestaurant` for its restaurant; `getNearbyDonations` does not return it; and
no read handler changes the store, so `d.isAvailable` stays true. -/
theorem no_automatic_expiry (ops : Operators) (g : Geo) (now : Date) (s : Store)
    (d : Donation)
    (hmem : d ∈ s.donations) (hav : d.isAvailable = some true) (hpast : d.pickupTime < now) :
    (∀ req : Request, truthyValue req.query.category = false →
      (req.query.isAvailable = none ∨ req.query.isAvailable = some (.str "true")) →
      d ∈ (getDonations ops s req).response.docs) ∧
    (∀ req : Request, req.params.id = d.restaurant →
      d ∈ (getDonationsByRestaurant s req).response.docs) ∧
    (∀ req : Request, d ∉ (getNearbyDonations g now s req).response.docs) ∧
    (∀ req : Request,
      (getDonations ops s req).store = s ∧ (getDonationsByRestaurant s req).store = s ∧
      (getNearbyDonations g now s req).store = s ∧ (getRestaurants s req).store = s ∧
      (getRestaurant s req).store = s ∧ (getNearbyRestaurants g s req).store = s) := by
  refine ⟨?_, ?_, ?_, ?_⟩
  · intro req hcat hisav
    have hacc : ∀ kvs, req.query.category = some (.obj kvs) →
        ops kvs = .ok (fun _ => true) := by
      intro kvs hk
      simp [truthyValue, hk] at hcat
    rw [(getDonations_of_ok ops s req _ (findListed_ok ops s req.query _ hacc)).2.1,
      List.mem_insertionSort, List.mem_filter]
    refine ⟨hmem, ?_⟩
    have hc : (match req.query.category with
        | none => true
        | some (.str c) => c == "" || d.category == c
        | some (.arr cs) => decide (d.category ∈ cs)
        | some (.obj _) => true) = true := by
      rcases hq : req.query.category with _ | v
      · rfl
      · rcases v with c | cs | kvs
        · have : c = "" := by simpa [truthyValue, hq] using hcat
          simp [this]
        · simp [truthyValue, hq] at hcat
        · rfl
    rcases hisav with h | h
    · simp [appliedFilter, availableFilter, hc, h]
    · simp [appliedFilter, availableFilter, hc, h, hav, queryValue_beq]
  · intro req hid
    simp [getDonationsByRestaurant, Response.docs, Listing.docs, Donation.find,
      DonationFilter.test, hmem, hav, hid]
  · intro req h
    exact absurd (getNearbyDonations_docs_subset g now s req d h).2 (not_le.mpr hpast)
  · intro req
    refine ⟨?_, rfl, ?_, rfl, ?_, ?_⟩
    · cases hf : Donation.findListed ops s (listFilter req.query) with
      | ok found => exact (getDonations_of_ok ops s req found hf).2.2.2
      | error e => exact (getDonations_of_error ops s req e hf).2.2
    · unfold getNearbyDonations
      repeat' split
      all_goals rfl
    · unfold getRestaurant
      repeat' split
      all_goals rfl
    · unfold getNearbyRestaurants
      repeat' split
      all_goals rfl

/-- Witness of C20: at time 1000, donation 2 (available, pickup at 500) is listed by
`getDonations` and for its restaurant, and is not in the nearby search. -/
theorem no_automatic_expiry_witness :
    donationB ∈ (getDonations exampleOps exampleStore { }).response.docs ∧
    donationB ∈ (getDonationsByRestaurant exampleStore restaurantRequest).response.docs ∧
    donationB ∉ (getNearbyDonations exampleGeo 1000 exampleStore nearbyRequest).response.docs :=
  have h := no_automatic_expiry exampleOps exampleGeo 1000 exampleStore donationB
    (by decide) (by decide) (by decide)
  ⟨h.1 { } rfl (Or.inl rfl), h.2.1 restaurantRequest rfl, h.2.2.1 nearbyRequest⟩

end GSC
